import Mathlib

/-!
Shallow embedding of the `iso8601` date package (file `date.go`): a strict
parser and validator for ISO 8601 calendar, ordinal, week and quarter dates.

Go byte slices are modelled as `List Nat` (each entry an octet value), Go
`int` as `Int` (no overflow occurs in the exercised ranges), Go `string`
values as Lean `String`.  Fallible functions return `Option`/`Except`, and
the parser result type has a dedicated `oob` constructor marking an
out-of-bounds byte access (where the Go program would panic), so that
panic-freedom is a provable statement.
-/

namespace Iso8601

/-! ## Byte primitives: countDigits, parseNumber -/

/-- Test from `countDigits`: `c := b[i] - '0'; if c > 9 { break }` where the
subtraction wraps around on the byte type. -/
def isDigitByte (c : Nat) : Bool := (c + 208) % 256 ≤ 9

/-- Length of the leading run of ASCII digits of a byte list. -/
def countLeading : List Nat → Nat
  | [] => 0
  | c :: rest => if isDigitByte c then countLeading rest + 1 else 0

/-- Embedding of `countDigits(b, i)`: counts the ASCII-digit run starting at
index `i`, stopping at the first non-digit or at the end of the slice. -/
def countDigits (b : List Nat) (i : Nat) : Nat := countLeading (b.drop i)

/-- Value of the Go expression `int(b[k] - '0')` (byte subtraction wraps). -/
def digitVal (c : Nat) : Int := ((c + 208) % 256 : Nat)

/-- The accumulation loop of `parseNumber`:
`for i := width; i > 0; i-- { v += int(b[start]-'0') * pow10(i-1); start++ }`. -/
def parseNumLoop (b : List Nat) : Nat → Nat → Int
  | _, 0 => 0
  | start, w + 1 => digitVal (b.getD start 0) * 10 ^ w + parseNumLoop b (start + 1) w

/-- Embedding of `parseNumber(b, start, width)`.  Go returns 0 when
`len(b) <= start`; when `start < len(b)` but the window sticks out past the
end the Go loop panics with an index-out-of-range error, modelled by `none`. -/
def parseNumber (b : List Nat) (start width : Nat) : Option Int :=
  if b.length ≤ start then some 0
  else if start + width ≤ b.length then some (parseNumLoop b start width)
  else none

/-! ## Calendar arithmetic -/

/-- Embedding of `isLeapYear`: `y%4 == 0 && (y%100 != 0 || y%400 == 0)` with
Go's truncated remainder. -/
def isLeapYear (y : Int) : Bool := y.tmod 4 = 0 && (y.tmod 100 ≠ 0 || y.tmod 400 = 0)

/-- Embedding of `daysInYear`. -/
def daysInYear (y : Int) : Int := if isLeapYear y then 366 else 365

/-- Indexing of `daysInQuarterList = [0, 90, 91, 92, 92]` (0 outside the
table's populated range; Go panics above index 4, which `daysInQuarter` only
reaches for quarters no claim exercises). -/
def daysInQuarterList (q : Int) : Int :=
  if q = 1 then 90 else if q = 2 then 91 else if q = 3 then 92 else if q = 4 then 92 else 0

/-- Embedding of `daysInQuarter`. -/
def daysInQuarter (y q : Int) : Int :=
  if q = 1 ∧ isLeapYear y then 91 else daysInQuarterList q

/-- Indexing of `daysInMonthList = [0, 31, 28, 31, 30, 31, 30, 31, 31, 30, 31, 30, 31]`. -/
def daysInMonthList (m : Int) : Int :=
  if m = 1 then 31 else if m = 2 then 28 else if m = 3 then 31 else if m = 4 then 30
  else if m = 5 then 31 else if m = 6 then 30 else if m = 7 then 31 else if m = 8 then 31
  else if m = 9 then 30 else if m = 10 then 31 else if m = 11 then 30 else if m = 12 then 31
  else 0

/-- Embedding of `daysInMonth`. -/
def daysInMonth (y m : Int) : Int :=
  if m = 2 ∧ isLeapYear y then 29 else daysInMonthList m

/-- Embedding of `weeksInYear`, with Go's truncated division and remainder. -/
def weeksInYear (year : Int) : Int :=
  let year := if year < 1 then year + 400 * (1 - year.tdiv 400) else year
  let y := year - 1
  let d := (y + y.tdiv 4 - y.tdiv 100 + y.tdiv 400).tmod 7
  if d = 3 ∨ (d = 2 ∧ isLeapYear year) then 53 else 52

/-! ## Date representations -/

/-- Embedding of `Date` (Go stores the month as `time.Month`, an integer). -/
structure Date where
  Year : Int
  Month : Int
  Day : Int
deriving DecidableEq, Repr

structure OrdinalDate where
  Year : Int
  Day : Int
deriving DecidableEq, Repr

structure WeekDate where
  Year : Int
  Week : Int
  Day : Int
deriving DecidableEq, Repr

structure QuarterDate where
  Year : Int
  Quarter : Int
  Day : Int
deriving DecidableEq, Repr

/-- Embedding of `DateLikeRangeError` (fields Element, Value, Year, Min, Max). -/
structure DateLikeRangeError where
  Element : String
  Value : Int
  Year : Int
  Min : Int
  Max : Int
deriving DecidableEq, Repr

/-- Embedding of `UnexpectedTokenError`. -/
structure UnexpectedTokenError where
  Value : String
  Token : String
  AfterToken : String
  Expected : String
deriving DecidableEq, Repr

/-- The two disjoint error kinds a parse can surface. -/
inductive ParseError
  | unexpected : UnexpectedTokenError → ParseError
  | range : DateLikeRangeError → ParseError
deriving DecidableEq, Repr

/-- The closed union of the four representations behind the `DateLike`
interface. -/
inductive DateLike
  | calendar : Date → DateLike
  | ordinal : OrdinalDate → DateLike
  | week : WeekDate → DateLike
  | quarter : QuarterDate → DateLike
deriving DecidableEq, Repr

/-! ## Validation -/

/-- Embedding of `Date.Validate`. -/
def Date.Validate (d : Date) : Option DateLikeRangeError :=
  if d.Year < 0 ∨ 9999 < d.Year then some ⟨"year", d.Year, d.Year, 0, 9999⟩
  else if d.Month < 1 ∨ 12 < d.Month then some ⟨"month", d.Month, d.Year, 1, 12⟩
  else
    let dim := daysInMonth d.Year d.Month
    if d.Day < 1 ∨ dim < d.Day then some ⟨"day of month", d.Day, d.Year, 1, dim⟩
    else none

/-- Embedding of `OrdinalDate.Validate`. -/
def OrdinalDate.Validate (o : OrdinalDate) : Option DateLikeRangeError :=
  if o.Year < 0 ∨ 9999 < o.Year then some ⟨"year", o.Year, o.Year, 0, 9999⟩
  else
    let diy := daysInYear o.Year
    if o.Day < 1 ∨ diy < o.Day then some ⟨"day of year", o.Day, o.Year, 1, diy⟩
    else none

/-- Embedding of `QuarterDate.Validate`. -/
def QuarterDate.Validate (q : QuarterDate) : Option DateLikeRangeError :=
  if q.Year < 0 ∨ 9999 < q.Year then some ⟨"year", q.Year, q.Year, 0, 9999⟩
  else if q.Quarter < 1 ∨ 4 < q.Quarter then some ⟨"quarter", q.Quarter, q.Year, 1, 4⟩
  else
    let diq := daysInQuarter q.Year q.Quarter
    if q.Day < 1 ∨ diq < q.Day then some ⟨"day of quarter", q.Day, q.Year, 1, diq⟩
    else none

/-- Embedding of `WeekDate.Validate` (year, then day of week, then week). -/
def WeekDate.Validate (w : WeekDate) : Option DateLikeRangeError :=
  if w.Year < 0 ∨ 9999 < w.Year then some ⟨"year", w.Year, w.Year, 0, 9999⟩
  else if w.Day < 1 ∨ 7 < w.Day then some ⟨"day of week", w.Day, w.Year, 1, 7⟩
  else
    let wiy := weeksInYear w.Year
    if w.Week < 1 ∨ wiy < w.Week then some ⟨"week", w.Week, w.Year, 1, wiy⟩
    else none

def Date.IsValid (d : Date) : Bool := d.Validate.isNone
def OrdinalDate.IsValid (o : OrdinalDate) : Bool := o.Validate.isNone
def QuarterDate.IsValid (q : QuarterDate) : Bool := q.Validate.isNone
def WeekDate.IsValid (w : WeekDate) : Bool := w.Validate.isNone

/-! ## Model of the Go `time` package day arithmetic

The conversions `OrdinalDate.Date`, `QuarterDate.Date` and `WeekDate.Date`
lean on `time.Date(y, time.January, 1, …)`, `AddDate(0, 0, n)`,
`Weekday()` and the `Year/Month/Day` accessors, i.e. on proleptic-Gregorian
day arithmetic.  That standard-library behaviour is modelled here directly:
an absolute day number for January 1 of a year, a weekday on absolute day
numbers, and the decomposition of "January 1 of year y plus delta days"
into a calendar date. -/

/-- Days from 0000-01-01 to y-01-01 in the proleptic Gregorian calendar. -/
def daysBeforeYear (y : Int) : Int :=
  365 * y + (y + 3) / 4 - (y + 99) / 100 + (y + 399) / 400

/-- Weekday of an absolute day number, in Go's `time.Weekday` numbering
(0 = Sunday … 6 = Saturday).  Day 0 (0000-01-01) is a Saturday. -/
def weekdayOfAbs (t : Int) : Int := (t + 6) % 7

/-- One step of the year normalization performed by `time.Date` on a
day-of-year that ran off either end of its year. -/
def normStep (p : Int × Int) : Int × Int :=
  if p.2 < 1 then (p.1 - 1, p.2 + daysInYear (p.1 - 1))
  else if daysInYear p.1 < p.2 then (p.1 + 1, p.2 - daysInYear p.1)
  else p

/-- Walk of the month lengths of year `y` turning an in-range day-of-year
into a month/day pair (the walk over months 1..11; what remains past
November belongs to month 12). -/
def monthDayLoop (y : Int) : Int → List Int → Int × Int
  | rem, [] => (12, rem)
  | rem, m :: rest =>
      if rem ≤ daysInMonth y m then (m, rem) else monthDayLoop y (rem - daysInMonth y m) rest

def monthDayFromYday (y yd : Int) : Int × Int :=
  monthDayLoop y yd [1, 2, 3, 4, 5, 6, 7, 8, 9, 10, 11]

/-- Model of `time.Date(y, time.January, 1, …).AddDate(0, 0, delta)` followed
by reading `Year()/Month()/Day()`: the calendar day `delta` days after
January 1 of year `y`.  Two normalization steps cover every offset the
package produces (all stay within one year of the starting year). -/
def addToJan1 (y delta : Int) : Date :=
  let p := normStep (normStep (y, delta + 1))
  let md := monthDayFromYday p.1 p.2
  ⟨p.1, md.1, md.2⟩

/-! ## Conversions to the canonical calendar form -/

/-- Embedding of `OrdinalDate.Date`: the year field is taken from the
ordinal date itself, only month and day come from the computed day. -/
def OrdinalDate.Date (o : OrdinalDate) : Date :=
  let t := addToJan1 o.Year (o.Day - 1)
  ⟨o.Year, t.Month, t.Day⟩

/-- The loop `for i := 1; i < q.Quarter; i++ { yday += daysInQuarter(q.Year, i) }`
(modelled for quarters ≤ 5; past that the Go loop would panic indexing
`daysInQuarterList`). -/
def quarterDaysBefore (y q : Int) : Int :=
  if q ≤ 1 then 0
  else if q = 2 then daysInQuarter y 1
  else if q = 3 then daysInQuarter y 1 + daysInQuarter y 2
  else if q = 4 then daysInQuarter y 1 + daysInQuarter y 2 + daysInQuarter y 3
  else daysInQuarter y 1 + daysInQuarter y 2 + daysInQuarter y 3 + daysInQuarter y 4

/-- Embedding of `QuarterDate.Date`: all three fields come from the
computed day. -/
def QuarterDate.Date (q : QuarterDate) : Date :=
  let yday := q.Day + quarterDaysBefore q.Year q.Quarter
  addToJan1 q.Year (yday - 1)

/-- The `for thursday.Weekday() != time.Thursday` search of `WeekDate.Date`,
unrolled: the weekday cycles with period 7, so the first Thursday on or
after `t` is among `t … t+6` (in the last branch the five failed tests force
`t+6` to be the Thursday). -/
def firstThursdayFrom (t : Int) : Int :=
  if weekdayOfAbs t = 4 then t
  else if weekdayOfAbs (t + 1) = 4 then t + 1
  else if weekdayOfAbs (t + 2) = 4 then t + 2
  else if weekdayOfAbs (t + 3) = 4 then t + 3
  else if weekdayOfAbs (t + 4) = 4 then t + 4
  else if weekdayOfAbs (t + 5) = 4 then t + 5
  else t + 6

/-- Embedding of `WeekDate.Date`: anchor on the first Thursday of the year,
back up three days to the Monday starting week 1, then advance by whole
weeks and days; all three fields come from the computed day. -/
def WeekDate.Date (w : WeekDate) : Date :=
  let jan1 := daysBeforeYear w.Year
  let thursday := firstThursdayFrom jan1
  let monday := thursday - 3
  let target := monday + (w.Week - 1) * 7 + (w.Day - 1)
  addToJan1 w.Year (target - jan1)

/-- `Date.Date` returns itself. -/
def Date.DateFn (d : Date) : Date := d

/-- Conversion of any `DateLike` to the canonical calendar form. -/
def DateLike.toDate : DateLike → Date
  | .calendar d => d
  | .ordinal o => o.Date
  | .week w => w.Date
  | .quarter q => q.Date

/-! ## Text rendering

Go strings are byte strings; the canonical renderings are modelled as byte
lists, and `bytesToStr` recovers the Lean `String` used in error fields. -/

/-- Decimal digits of a natural number, most significant first, as ASCII
bytes (the digit production of Go's `%d`/`Itoa`); the fuel argument is an
upper bound on the digit count, `n + 1` always suffices. -/
def natDecimalAux : Nat → Nat → List Nat
  | 0, _ => []
  | fuel + 1, n => if n < 10 then [48 + n] else natDecimalAux fuel (n / 10) ++ [48 + n % 10]

def natDecimal (n : Nat) : List Nat := natDecimalAux (n + 1) n

/-- Model of `strconv.Itoa` / `fmt.Sprintf("%d", v)` as bytes. -/
def intItoa (v : Int) : List Nat :=
  if v < 0 then 45 :: natDecimal (-v).toNat else natDecimal v.toNat

/-- Model of Go's zero-padded verb `%0{w}d` for values in `[0, 10^w)` — the
only range the validated dates rendered here produce: exactly `w` ASCII
digits, most significant first. -/
def padDigits (w : Nat) (v : Int) : List Nat :=
  (List.range w).map fun i => 48 + v.toNat / 10 ^ (w - 1 - i) % 10

/-- Byte list to Lean string (octets are valid code points). -/
def bytesToStr (l : List Nat) : String := ⟨l.map fun c => Char.ofNat c⟩

/-- ASCII bytes of a Lean string literal. -/
def strBytes (s : String) : List Nat := s.data.map Char.toNat

/-- Embedding of `Date.String`: `fmt.Sprintf("%04d-%02d-%02d", …)`. -/
def Date.String (d : Date) : List Nat :=
  padDigits 4 d.Year ++ 45 :: padDigits 2 d.Month ++ 45 :: padDigits 2 d.Day

/-- Embedding of `OrdinalDate.String`: `fmt.Sprintf("%04d-%03d", …)`. -/
def OrdinalDate.String (o : OrdinalDate) : List Nat :=
  padDigits 4 o.Year ++ 45 :: padDigits 3 o.Day

/-- Embedding of `WeekDate.String`: `fmt.Sprintf("%04d-W%02d-%d", …)`
(87 is `W`). -/
def WeekDate.String (w : WeekDate) : List Nat :=
  padDigits 4 w.Year ++ 45 :: 87 :: (padDigits 2 w.Week ++ 45 :: intItoa w.Day)

/-- Embedding of `QuarterDate.String`: `fmt.Sprintf("%04d-Q%d-%02d", …)`
(81 is `Q`). -/
def QuarterDate.String (q : QuarterDate) : List Nat :=
  padDigits 4 q.Year ++ 45 :: 81 :: (intItoa q.Quarter ++ 45 :: padDigits 2 q.Day)

/-! ## The grammar dispatcher -/

/-- Embedding of `humanizeDigits`. -/
def humanizeDigits (n : Nat) : String :=
  if n ≤ 1 then bytesToStr (natDecimal n) ++ "-digit"
  else bytesToStr (natDecimal n) ++ "-digits"

/-- Embedding of `ydISODate`: validating construction of an ordinal date. -/
def ydISODate (y d : Int) : Except DateLikeRangeError DateLike :=
  let yd : OrdinalDate := ⟨y, d⟩
  match yd.Validate with
  | some e => .error e
  | none => .ok (.ordinal yd)

/-- Embedding of `ymdISODate`: validating construction of a calendar date. -/
def ymdISODate (y m d : Int) : Except DateLikeRangeError DateLike :=
  let ymd : Date := ⟨y, m, d⟩
  match ymd.Validate with
  | some e => .error e
  | none => .ok (.calendar ymd)

/-- Embedding of `yqdISODate`: validating construction of a quarter date. -/
def yqdISODate (y q d : Int) : Except DateLikeRangeError DateLike :=
  let yqd : QuarterDate := ⟨y, q, d⟩
  match yqd.Validate with
  | some e => .error e
  | none => .ok (.quarter yqd)

/-- Embedding of `ywdISODate`: validating construction of a week date. -/
def ywdISODate (y w d : Int) : Except DateLikeRangeError DateLike :=
  let ywd : WeekDate := ⟨y, w, d⟩
  match ywd.Validate with
  | some e => .error e
  | none => .ok (.week ywd)

/-- Result of `parseDate`/`ParseDate`: consumed count with a value, a
structured error, or `oob` marking an out-of-bounds byte access on which the
Go program would panic. -/
inductive PDResult
  | ok : Nat → DateLike → PDResult
  | err : ParseError → PDResult
  | oob : PDResult
deriving DecidableEq, Repr

/-- Wrap a validating constructor's outcome the way every `parseDate` leaf
does: `dt, err := …ISODate(…); return consumed, dt, err`. -/
def leafResult (consumed : Nat) : Except DateLikeRangeError DateLike → PDResult
  | .error e => .err (.range e)
  | .ok dt => .ok consumed dt

/-- The error built both by the dispatcher's default branch and by the
fall-through after the extended-format switch: `Token: humanizeDigits(n),
AfterToken: "", Expected: "date format"`. -/
def fallThroughError (b : List Nat) (n : Nat) : PDResult :=
  .err (.unexpected ⟨bytesToStr b, humanizeDigits n, "", "date format"⟩)

/-- The `case 'Q'` block of the extended family: `2012-Q4-85`. -/
def parseExtQuarter (b : List Nat) (y : Int) : PDResult :=
  let n1 := countDigits b 6
  if n1 ≠ 1 then
    .err (.unexpected ⟨bytesToStr b, humanizeDigits n1, "Q", humanizeDigits 1⟩)
  else
    match parseNumber b 6 1 with
    | none => .oob
    | some x =>
      match b.get? 7 with
      | none => .oob
      | some c7 =>
        if c7 ≠ 45 then
          .err (.unexpected ⟨bytesToStr b, bytesToStr [c7], "Q" ++ bytesToStr (intItoa x), "-"⟩)
        else
          let c := countDigits b 8
          if c ≠ 2 then
            .err (.unexpected ⟨bytesToStr b, humanizeDigits c,
              "Q" ++ bytesToStr (intItoa x) ++ "-", humanizeDigits 2⟩)
          else
            match parseNumber b 8 2 with
            | none => .oob
            | some d => leafResult 10 (yqdISODate y x d)

/-- The `case 'W'` block of the extended family: `2012-W52-1`. -/
def parseExtWeek (b : List Nat) (y : Int) : PDResult :=
  let n1 := countDigits b 6
  if n1 ≠ 2 then
    .err (.unexpected ⟨bytesToStr b, humanizeDigits n1, "W", humanizeDigits 2⟩)
  else
    match parseNumber b 6 2 with
    | none => .oob
    | some x =>
      match b.get? 8 with
      | none => .oob
      | some c8 =>
        if c8 ≠ 45 then
          .err (.unexpected ⟨bytesToStr b, bytesToStr [c8], "W" ++ bytesToStr (padDigits 2 x), "-"⟩)
        else
          let c := countDigits b 9
          if c ≠ 1 then
            .err (.unexpected ⟨bytesToStr b, humanizeDigits c,
              "W" ++ bytesToStr (padDigits 2 x) ++ "-", humanizeDigits 1⟩)
          else
            match parseNumber b 9 1 with
            | none => .oob
            | some d => leafResult 10 (ywdISODate y x d)

/-- The `case 0` arm of the extended-family switch: `2012-Q4-85 | 2012-W52-1`,
guarded by `len(b) >= 10`; anything else falls through to the dispatcher's
final `UnexpectedTokenError` (with the digit-run count `n`, here 0). -/
def parseExtQW (b : List Nat) (y : Int) (n : Nat) : PDResult :=
  if 10 ≤ b.length then
    match b.get? 5 with
    | none => .oob
    | some c5 =>
      if c5 = 81 then parseExtQuarter b y
      else if c5 = 87 then parseExtWeek b y
      else fallThroughError b n
  else fallThroughError b n

/-- The `case 2` arm of the extended-family switch: `2012-12-24`. -/
def parseExtCalendar (b : List Nat) (y : Int) : PDResult :=
  match parseNumber b 5 2 with
  | none => .oob
  | some x =>
    match b.get? 7 with
    | none => .oob
    | some c7 =>
      if c7 ≠ 45 then
        .err (.unexpected ⟨bytesToStr b, bytesToStr [c7], "-" ++ bytesToStr (padDigits 2 x), "-"⟩)
      else
        let c := countDigits b 8
        if c ≠ 2 then
          .err (.unexpected ⟨bytesToStr b, humanizeDigits c,
            "-" ++ bytesToStr (padDigits 2 x) ++ "-", humanizeDigits 2⟩)
        else
          match parseNumber b 8 2 with
          | none => .oob
          | some d => leafResult 10 (ymdISODate y x d)

/-- The `case 3` arm of the extended-family switch: `2012-359`. -/
def parseExtOrdinal (b : List Nat) (y : Int) : PDResult :=
  match parseNumber b 5 3 with
  | none => .oob
  | some d => leafResult 8 (ydISODate y d)

/-- The switch on the digit-run length `n` found after `2012-`. -/
def parseExtended (b : List Nat) (y : Int) (n : Nat) : PDResult :=
  if n = 0 then parseExtQW b y n
  else if n = 2 then parseExtCalendar b y
  else if n = 3 then parseExtOrdinal b y
  else
    .err (.unexpected ⟨bytesToStr b, humanizeDigits n,
      bytesToStr (intItoa y) ++ "-", "like -Q4-85 or -W52-1 or -359"⟩)

/-- The `case 'Q'` arm after the year: basic quarter date `2012Q485`
(`n` is the digit-run length after position 4). -/
def parseBasicQuarter (b : List Nat) (y : Int) (n : Nat) : PDResult :=
  if n ≠ 3 then
    .err (.unexpected ⟨bytesToStr b, humanizeDigits n, "Q", humanizeDigits 3⟩)
  else
    match parseNumber b 5 1 with
    | none => .oob
    | some x =>
      match parseNumber b 6 2 with
      | none => .oob
      | some d => leafResult 8 (yqdISODate y x d)

/-- The `case 'W'` arm after the year: basic week date `2012W521`. -/
def parseBasicWeek (b : List Nat) (y : Int) (n : Nat) : PDResult :=
  if n ≠ 3 then
    .err (.unexpected ⟨bytesToStr b, humanizeDigits n, "W", humanizeDigits 3⟩)
  else
    match parseNumber b 5 2 with
    | none => .oob
    | some x =>
      match parseNumber b 7 1 with
      | none => .oob
      | some d => leafResult 8 (ywdISODate y x d)

/-- The `case 4` arm of the dispatcher: the four digits are the year and the
byte at position 4 disambiguates the format. -/
def parseYearHead (b : List Nat) : PDResult :=
  match parseNumber b 0 4 with
  | none => .oob
  | some y =>
    if b.length < 8 then
      .err (.unexpected ⟨bytesToStr b, bytesToStr (b.drop 4), bytesToStr (intItoa y),
        "8 or more characters"⟩)
    else
      let n := countDigits b 5
      match b.get? 4 with
      | none => .oob
      | some c4 =>
        if c4 = 45 then parseExtended b y n
        else if c4 = 81 then parseBasicQuarter b y n
        else if c4 = 87 then parseBasicWeek b y n
        else
          .err (.unexpected ⟨bytesToStr b, bytesToStr (b.drop 4), bytesToStr (intItoa y),
            "- or Q or W"⟩)

/-- The `case 7` arm: basic ordinal date `2012359`. -/
def parseBasicOrdinal (b : List Nat) : PDResult :=
  match parseNumber b 0 4 with
  | none => .oob
  | some y =>
    match parseNumber b 4 3 with
    | none => .oob
    | some d => leafResult 7 (ydISODate y d)

/-- The `case 8` arm: basic calendar date `20121224`. -/
def parseBasicCalendar (b : List Nat) : PDResult :=
  match parseNumber b 0 4 with
  | none => .oob
  | some y =>
    match parseNumber b 4 2 with
    | none => .oob
    | some x =>
      match parseNumber b 6 2 with
      | none => .oob
      | some d => leafResult 8 (ymdISODate y x d)

/-- The body of `parseDate` after the optional sign has been stripped: the
switch on the length of the leading digit run.  The returned consumed counts
do not yet include the sign. -/
def parseDateNoSign (b : List Nat) : PDResult :=
  let n := countDigits b 0
  if n = 4 then parseYearHead b
  else if n = 7 then parseBasicOrdinal b
  else if n = 8 then parseBasicCalendar b
  else fallThroughError b n

/-- Bump the consumed count by the stripped sign character. -/
def addSign : PDResult → PDResult
  | .ok n d => .ok (n + 1) d
  | r => r

/-- Embedding of `parseDate`: an optional leading `+` (byte 43) is stripped
and recorded only in the consumed count. -/
def parseDate (b : List Nat) : PDResult :=
  match b with
  | c :: rest => if c = 43 then addSign (parseDateNoSign rest) else parseDateNoSign (c :: rest)
  | [] => parseDateNoSign []

/-- Embedding of the exported `ParseDate`: requires total consumption. -/
def ParseDate (b : List Nat) : PDResult :=
  match parseDate b with
  | .oob => .oob
  | .err e => .err e
  | .ok n d =>
      if b.length ≠ n then
        .err (.unexpected ⟨bytesToStr b, bytesToStr (b.drop n), bytesToStr (b.take n),
          bytesToStr (b.take n)⟩)
      else .ok n d

/-- Specification-side notion for the weeksInYear claim: the
proleptic-Gregorian day of week of January 1 of year `y`, in Go's
`time.Weekday` numbering (0 = Sunday, 3 = Wednesday, 4 = Thursday),
computed from the calendar model rather than from `weeksInYear`'s own
formula. -/
def jan1Weekday (y : Int) : Int := weekdayOfAbs (daysBeforeYear y)

/-- An octet that is an ASCII digit. -/
def IsDigit (c : Nat) : Prop := 48 ≤ c ∧ c ≤ 57

instance (c : Nat) : Decidable (IsDigit c) := by unfold IsDigit; infer_instance

/-! ## Lemmas about the byte primitives -/

theorem isDigitByte_eq_true {c : Nat} (h : IsDigit c) : isDigitByte c = true := by
  obtain ⟨h1, h2⟩ := h
  simp only [isDigitByte, decide_eq_true_eq]
  omega

theorem digitVal_eq {c : Nat} (h : IsDigit c) : digitVal c = (c : Int) - 48 := by
  obtain ⟨h1, h2⟩ := h
  simp only [digitVal]
  omega

theorem countLeading_le (l : List Nat) : countLeading l ≤ l.length := by
  induction l with
  | nil => simp [countLeading]
  | cons c rest ih =>
      simp only [countLeading, List.length_cons]
      split <;> omega

theorem countDigits_le (b : List Nat) (i : Nat) : countDigits b i ≤ b.length - i := by
  simpa [countDigits] using countLeading_le (b.drop i)

theorem countLeading_cons_digit {c : Nat} (h : IsDigit c) (rest : List Nat) :
    countLeading (c :: rest) = countLeading rest + 1 := by
  simp [countLeading, isDigitByte_eq_true h]

theorem countLeading_digits_append {l : List Nat} (h : ∀ c ∈ l, IsDigit c) (rest : List Nat) :
    countLeading (l ++ rest) = l.length + countLeading rest := by
  induction l with
  | nil => simp
  | cons c tail ih =>
      rw [List.cons_append, countLeading_cons_digit (h c (by simp)),
        ih (fun x hx => h x (by simp [hx])), List.length_cons]
      omega

theorem countLeading_all {l : List Nat} (h : ∀ c ∈ l, IsDigit c) : countLeading l = l.length := by
  have := countLeading_digits_append h []
  simpa [countLeading] using this

theorem countLeading_cons_nondigit {c : Nat} (h : isDigitByte c = false) (rest : List Nat) :
    countLeading (c :: rest) = 0 := by
  simp [countLeading, h]

theorem parseNumber_eq_none_iff {b : List Nat} {s w : Nat} :
    parseNumber b s w = none ↔ s < b.length ∧ b.length < s + w := by
  unfold parseNumber
  split_ifs <;> simp <;> omega

theorem parseNumber_of_le {b : List Nat} {s w : Nat} (h : s + w ≤ b.length) :
    parseNumber b s w = some (parseNumLoop b s w) := by
  unfold parseNumber
  split_ifs with h1
  · have hw : w = 0 := by omega
    subst hw
    rfl
  · rfl

theorem leafResult_ne_oob (n : Nat) (r : Except DateLikeRangeError DateLike) :
    leafResult n r ≠ .oob := by
  cases r <;> simp [leafResult]

theorem fallThroughError_ne_oob (b : List Nat) (n : Nat) : fallThroughError b n ≠ .oob := by
  simp [fallThroughError]

theorem parseExtQuarter_ne_oob {b : List Nat} (h : 10 ≤ b.length) (y : Int) :
    parseExtQuarter b y ≠ PDResult.oob := by
  intro hfin
  simp only [parseExtQuarter] at hfin
  repeat' split at hfin
  all_goals try exact leafResult_ne_oob _ _ hfin
  all_goals simp_all [parseNumber_eq_none_iff, List.get?_eq_none]
  all_goals omega

theorem parseExtWeek_ne_oob {b : List Nat} (h : 10 ≤ b.length) (y : Int) :
    parseExtWeek b y ≠ PDResult.oob := by
  intro hfin
  simp only [parseExtWeek] at hfin
  repeat' split at hfin
  all_goals try exact leafResult_ne_oob _ _ hfin
  all_goals simp_all [parseNumber_eq_none_iff, List.get?_eq_none]
  all_goals omega

theorem parseExtQW_ne_oob (b : List Nat) (y : Int) (n : Nat) :
    parseExtQW b y n ≠ PDResult.oob := by
  intro hfin
  simp only [parseExtQW] at hfin
  repeat' split at hfin
  all_goals try exact fallThroughError_ne_oob _ _ hfin
  all_goals try exact parseExtQuarter_ne_oob (by assumption) _ hfin
  all_goals try exact parseExtWeek_ne_oob (by assumption) _ hfin
  all_goals simp_all [List.get?_eq_none]
  all_goals omega

theorem parseExtCalendar_ne_oob {b : List Nat} (h : 8 ≤ b.length) (y : Int) :
    parseExtCalendar b y ≠ PDResult.oob := by
  intro hfin
  have hc8 := countDigits_le b 8
  simp only [parseExtCalendar] at hfin
  repeat' split at hfin
  all_goals try exact leafResult_ne_oob _ _ hfin
  all_goals simp_all [parseNumber_eq_none_iff, List.get?_eq_none]
  all_goals omega

theorem parseExtOrdinal_ne_oob {b : List Nat} (h : 8 ≤ b.length) (y : Int) :
    parseExtOrdinal b y ≠ PDResult.oob := by
  intro hfin
  simp only [parseExtOrdinal] at hfin
  repeat' split at hfin
  all_goals try exact leafResult_ne_oob _ _ hfin
  all_goals simp_all [parseNumber_eq_none_iff]
  all_goals omega

theorem parseExtended_ne_oob {b : List Nat} (h : 8 ≤ b.length) (y : Int) (n : Nat) :
    parseExtended b y n ≠ PDResult.oob := by
  intro hfin
  simp only [parseExtended] at hfin
  repeat' split at hfin
  all_goals try exact parseExtQW_ne_oob _ _ _ hfin
  all_goals try exact parseExtCalendar_ne_oob h _ hfin
  all_goals try exact parseExtOrdinal_ne_oob h _ hfin
  all_goals simp_all

theorem parseBasicQuarter_ne_oob {b : List Nat} (h : 8 ≤ b.length) (y : Int) (n : Nat) :
    parseBasicQuarter b y n ≠ PDResult.oob := by
  intro hfin
  simp only [parseBasicQuarter] at hfin
  repeat' split at hfin
  all_goals try exact leafResult_ne_oob _ _ hfin
  all_goals simp_all [parseNumber_eq_none_iff]
  all_goals omega

theorem parseBasicWeek_ne_oob {b : List Nat} (h : 8 ≤ b.length) (y : Int) (n : Nat) :
    parseBasicWeek b y n ≠ PDResult.oob := by
  intro hfin
  simp only [parseBasicWeek] at hfin
  repeat' split at hfin
  all_goals try exact leafResult_ne_oob _ _ hfin
  all_goals simp_all [parseNumber_eq_none_iff]
  all_goals omega

theorem parseYearHead_ne_oob {b : List Nat} (h : 4 ≤ b.length) :
    parseYearHead b ≠ PDResult.oob := by
  intro hfin
  simp only [parseYearHead] at hfin
  repeat' split at hfin
  all_goals try exact parseExtended_ne_oob (by omega) _ _ hfin
  all_goals try exact parseBasicQuarter_ne_oob (by omega) _ _ hfin
  all_goals try exact parseBasicWeek_ne_oob (by omega) _ _ hfin
  all_goals simp_all [parseNumber_eq_none_iff, List.get?_eq_none]
  all_goals omega

theorem parseBasicOrdinal_ne_oob {b : List Nat} (h : 7 ≤ b.length) :
    parseBasicOrdinal b ≠ PDResult.oob := by
  intro hfin
  simp only [parseBasicOrdinal] at hfin
  repeat' split at hfin
  all_goals try exact leafResult_ne_oob _ _ hfin
  all_goals simp_all [parseNumber_eq_none_iff]
  all_goals omega

theorem parseBasicCalendar_ne_oob {b : List Nat} (h : 8 ≤ b.length) :
    parseBasicCalendar b ≠ PDResult.oob := by
  intro hfin
  simp only [parseBasicCalendar] at hfin
  repeat' split at hfin
  all_goals try exact leafResult_ne_oob _ _ hfin
  all_goals simp_all [parseNumber_eq_none_iff]
  all_goals omega

/-- Claim C9 core: the dispatcher body never performs an out-of-bounds
byte access — every positional read is covered by a preceding length check
or digit-run count. -/
theorem parseDateNoSign_ne_oob (b : List Nat) : parseDateNoSign b ≠ PDResult.oob := by
  intro hfin
  have h0 := countDigits_le b 0
  simp only [parseDateNoSign] at hfin
  repeat' split at hfin
  all_goals try exact parseYearHead_ne_oob (by omega) hfin
  all_goals try exact parseBasicOrdinal_ne_oob (by omega) hfin
  all_goals try exact parseBasicCalendar_ne_oob (by omega) hfin
  all_goals exact fallThroughError_ne_oob _ _ hfin

theorem addSign_ne_oob {r : PDResult} (h : r ≠ PDResult.oob) : addSign r ≠ PDResult.oob := by
  cases r <;> simp_all [addSign]

theorem parseDate_ne_oob (b : List Nat) : parseDate b ≠ PDResult.oob := by
  match b with
  | [] => exact parseDateNoSign_ne_oob []
  | c :: rest =>
      rw [parseDate]
      split
      · exact addSign_ne_oob (parseDateNoSign_ne_oob rest)
      · exact parseDateNoSign_ne_oob (c :: rest)

/-! ## Validation characterizations -/

theorem Date_Validate_none_iff {d : Date} :
    d.Validate = none ↔ 0 ≤ d.Year ∧ d.Year ≤ 9999 ∧ 1 ≤ d.Month ∧ d.Month ≤ 12 ∧
      1 ≤ d.Day ∧ d.Day ≤ daysInMonth d.Year d.Month := by
  unfold Date.Validate
  split_ifs <;> simp <;> omega

theorem OrdinalDate_Validate_none_iff {o : OrdinalDate} :
    o.Validate = none ↔ 0 ≤ o.Year ∧ o.Year ≤ 9999 ∧ 1 ≤ o.Day ∧ o.Day ≤ daysInYear o.Year := by
  unfold OrdinalDate.Validate
  split_ifs <;> simp <;> omega

theorem QuarterDate_Validate_none_iff {q : QuarterDate} :
    q.Validate = none ↔ 0 ≤ q.Year ∧ q.Year ≤ 9999 ∧ 1 ≤ q.Quarter ∧ q.Quarter ≤ 4 ∧
      1 ≤ q.Day ∧ q.Day ≤ daysInQuarter q.Year q.Quarter := by
  unfold QuarterDate.Validate
  split_ifs <;> simp <;> omega

theorem WeekDate_Validate_none_iff {w : WeekDate} :
    w.Validate = none ↔ 0 ≤ w.Year ∧ w.Year ≤ 9999 ∧ 1 ≤ w.Day ∧ w.Day ≤ 7 ∧
      1 ≤ w.Week ∧ w.Week ≤ weeksInYear w.Year := by
  unfold WeekDate.Validate
  split_ifs <;> simp <;> omega

/-! ## Day-count facts -/

theorem daysInYear_bounds (y : Int) : 365 ≤ daysInYear y ∧ daysInYear y ≤ 366 := by
  unfold daysInYear
  split <;> omega

theorem daysInYear_of_leap {y : Int} (h : isLeapYear y = true) : daysInYear y = 366 := by
  simp [daysInYear, h]

theorem daysInYear_of_not_leap {y : Int} (h : isLeapYear y = false) : daysInYear y = 365 := by
  simp [daysInYear, h]

theorem daysInMonth_pos {y m : Int} (h1 : 1 ≤ m) (h2 : m ≤ 12) :
    28 ≤ daysInMonth y m ∧ daysInMonth y m ≤ 31 := by
  interval_cases m <;> cases hl : isLeapYear y <;>
    simp [daysInMonth, daysInMonthList, hl]

/-! ## Correctness of the day-to-date decomposition -/

theorem monthDayLoop_valid (y : Int) :
    ∀ (ms : List Int) (rem : Int), 1 ≤ rem →
      rem ≤ ms.foldr (fun m acc => daysInMonth y m + acc) (daysInMonth y 12) →
      1 ≤ (monthDayLoop y rem ms).2 ∧
        (monthDayLoop y rem ms).2 ≤ daysInMonth y (monthDayLoop y rem ms).1 ∧
        ((monthDayLoop y rem ms).1 ∈ ms ∨ (monthDayLoop y rem ms).1 = 12)
  | [], rem, h1, h2 => by
      simp only [List.foldr_nil] at h2
      refine ⟨h1, ?_, ?_⟩ <;> simp [monthDayLoop, h2]
  | m :: ms', rem, h1, h2 => by
      rw [monthDayLoop]
      split_ifs with hle
      · exact ⟨h1, hle, Or.inl (by simp)⟩
      · simp only [List.foldr_cons] at h2
        have hrec := monthDayLoop_valid y ms' (rem - daysInMonth y m) (by omega) (by omega)
        refine ⟨hrec.1, hrec.2.1, ?_⟩
        rcases hrec.2.2 with hm | hm
        · exact Or.inl (by simp [hm])
        · exact Or.inr hm

theorem months_foldr_eq_daysInYear (y : Int) :
    ([1, 2, 3, 4, 5, 6, 7, 8, 9, 10, 11] : List Int).foldr
        (fun m acc => daysInMonth y m + acc) (daysInMonth y 12) = daysInYear y := by
  cases hl : isLeapYear y <;>
    simp [daysInMonth, daysInMonthList, daysInYear, hl]

theorem monthDayFromYday_valid {y yd : Int} (h1 : 1 ≤ yd) (h2 : yd ≤ daysInYear y) :
    1 ≤ (monthDayFromYday y yd).1 ∧ (monthDayFromYday y yd).1 ≤ 12 ∧
      1 ≤ (monthDayFromYday y yd).2 ∧
      (monthDayFromYday y yd).2 ≤ daysInMonth y (monthDayFromYday y yd).1 := by
  have h2' : yd ≤ ([1, 2, 3, 4, 5, 6, 7, 8, 9, 10, 11] : List Int).foldr
      (fun m acc => daysInMonth y m + acc) (daysInMonth y 12) := by
    rw [months_foldr_eq_daysInYear]; exact h2
  have h := monthDayLoop_valid y [1, 2, 3, 4, 5, 6, 7, 8, 9, 10, 11] yd h1 h2'
  have hmem : 1 ≤ (monthDayFromYday y yd).1 ∧ (monthDayFromYday y yd).1 ≤ 12 := by
    rcases h.2.2 with hm | hm
    · simp only [List.mem_cons, List.not_mem_nil, or_false] at hm
      unfold monthDayFromYday
      omega
    · unfold monthDayFromYday
      omega
  exact ⟨hmem.1, hmem.2, h.1, h.2.1⟩

theorem normStep_id {y yd : Int} (h1 : 1 ≤ yd) (h2 : yd ≤ daysInYear y) :
    normStep (y, yd) = (y, yd) := by
  unfold normStep
  dsimp only
  rw [if_neg (by omega), if_neg (by omega)]

theorem normStep_up {y yd : Int} (h : daysInYear y < yd) :
    normStep (y, yd) = (y + 1, yd - daysInYear y) := by
  have hb := daysInYear_bounds y
  unfold normStep
  dsimp only
  rw [if_neg (by omega), if_pos h]

theorem normStep_down {y yd : Int} (h : yd < 1) :
    normStep (y, yd) = (y - 1, yd + daysInYear (y - 1)) := by
  unfold normStep
  dsimp only
  rw [if_pos h]

theorem addToJan1_eval {y delta y' yd : Int}
    (h : normStep (normStep (y, delta + 1)) = (y', yd)) :
    addToJan1 y delta = ⟨y', (monthDayFromYday y' yd).1, (monthDayFromYday y' yd).2⟩ := by
  simp only [addToJan1, h]

/-- Validity of `addToJan1` for every offset reached by the conversions:
within three days of either end of year `y`, with the year shift staying
inside `[0, 9999]`. -/
theorem addToJan1_valid {y delta : Int} (hy0 : 0 ≤ y) (hy1 : y ≤ 9999)
    (hlow : -3 ≤ delta) (hup : delta + 1 ≤ daysInYear y + 3)
    (hylow : delta + 1 < 1 → 1 ≤ y) (hyup : daysInYear y < delta + 1 → y ≤ 9998) :
    (addToJan1 y delta).Validate = none := by
  have hby := daysInYear_bounds y
  rcases lt_trichotomy (delta + 1) 1 with hc | hc | hc
  · -- lands in the final days of year y - 1
    have hby' := daysInYear_bounds (y - 1)
    have hyl := hylow hc
    have hin1 : (1 : Int) ≤ delta + 1 + daysInYear (y - 1) := by omega
    have hin2 : delta + 1 + daysInYear (y - 1) ≤ daysInYear (y - 1) := by omega
    have hmd := monthDayFromYday_valid hin1 hin2
    have h1s : normStep (y, delta + 1) = (y - 1, delta + 1 + daysInYear (y - 1)) :=
      normStep_down (by omega)
    have hsteps : normStep (normStep (y, delta + 1)) = (y - 1, delta + 1 + daysInYear (y - 1)) := by
      rw [h1s]
      exact normStep_id hin1 hin2
    rw [addToJan1_eval hsteps, Date_Validate_none_iff]
    dsimp only
    exact ⟨by omega, by omega, hmd.1, hmd.2.1, hmd.2.2.1, hmd.2.2.2⟩
  · -- delta = 0: January 1 of year y itself
    have hin1 : (1 : Int) ≤ delta + 1 := by omega
    have hin2 : delta + 1 ≤ daysInYear y := by omega
    have hmd := monthDayFromYday_valid hin1 hin2
    have h1s : normStep (y, delta + 1) = (y, delta + 1) := normStep_id hin1 hin2
    have hsteps : normStep (normStep (y, delta + 1)) = (y, delta + 1) := by
      rw [h1s]
      exact h1s
    rw [addToJan1_eval hsteps, Date_Validate_none_iff]
    dsimp only
    exact ⟨by omega, by omega, hmd.1, hmd.2.1, hmd.2.2.1, hmd.2.2.2⟩
  · rcases le_or_lt (delta + 1) (daysInYear y) with hc2 | hc2
    · -- lands inside year y
      have hin1 : (1 : Int) ≤ delta + 1 := by omega
      have hmd := monthDayFromYday_valid hin1 hc2
      have h1s : normStep (y, delta + 1) = (y, delta + 1) := normStep_id hin1 hc2
      have hsteps : normStep (normStep (y, delta + 1)) = (y, delta + 1) := by
        rw [h1s]
        exact h1s
      rw [addToJan1_eval hsteps, Date_Validate_none_iff]
      dsimp only
      exact ⟨by omega, by omega, hmd.1, hmd.2.1, hmd.2.2.1, hmd.2.2.2⟩
    · -- lands in the first days of year y + 1
      have hby' := daysInYear_bounds (y + 1)
      have hyu := hyup hc2
      have hin1 : (1 : Int) ≤ delta + 1 - daysInYear y := by omega
      have hin2 : delta + 1 - daysInYear y ≤ daysInYear (y + 1) := by omega
      have hmd := monthDayFromYday_valid hin1 hin2
      have h1s : normStep (y, delta + 1) = (y + 1, delta + 1 - daysInYear y) := normStep_up hc2
      have hsteps : normStep (normStep (y, delta + 1)) = (y + 1, delta + 1 - daysInYear y) := by
        rw [h1s]
        exact normStep_id hin1 hin2
      rw [addToJan1_eval hsteps, Date_Validate_none_iff]
      dsimp only
      exact ⟨by omega, by omega, hmd.1, hmd.2.1, hmd.2.2.1, hmd.2.2.2⟩

/-! ## The weeksInYear formula and the calendar weekday -/

theorem weeksInYear_pos_eq {y : Int} (h : 1 ≤ y) :
    weeksInYear y =
      if ((y - 1) + (y - 1) / 4 - (y - 1) / 100 + (y - 1) / 400) % 7 = 3 ∨
          (((y - 1) + (y - 1) / 4 - (y - 1) / 100 + (y - 1) / 400) % 7 = 2 ∧
            isLeapYear y = true)
      then 53 else 52 := by
  simp only [weeksInYear]
  have hy : (if y < 1 then y + 400 * (1 - y.tdiv 400) else y) = y := if_neg (by omega)
  rw [hy]
  have e4 : (y - 1).tdiv 4 = (y - 1) / 4 := Int.tdiv_eq_ediv (by omega) (by norm_num)
  have e100 : (y - 1).tdiv 100 = (y - 1) / 100 := Int.tdiv_eq_ediv (by omega) (by norm_num)
  have e400 : (y - 1).tdiv 400 = (y - 1) / 400 := Int.tdiv_eq_ediv (by omega) (by norm_num)
  rw [e4, e100, e400]
  have hnn : 0 ≤ (y - 1) + (y - 1) / 4 - (y - 1) / 100 + (y - 1) / 400 := by omega
  rw [Int.tmod_eq_emod hnn (by norm_num)]

theorem daysBeforeYear_mod7 {y : Int} (h : 1 ≤ y) :
    (daysBeforeYear y + 6) % 7 =
      (((y - 1) + (y - 1) / 4 - (y - 1) / 100 + (y - 1) / 400) % 7 + 1) % 7 := by
  unfold daysBeforeYear
  have hb : (y + 3) / 4 = (y - 1) / 4 + 1 := by omega
  have hc : (y + 99) / 100 = (y - 1) / 100 + 1 := by omega
  have hd : (y + 399) / 400 = (y - 1) / 400 + 1 := by omega
  rw [hb, hc, hd]
  have hsum : 365 * y + ((y - 1) / 4 + 1) - ((y - 1) / 100 + 1) + ((y - 1) / 400 + 1) + 6 =
      ((y - 1) + (y - 1) / 4 - (y - 1) / 100 + (y - 1) / 400) + 1 + 7 * (52 * y + 1) := by
    ring
  rw [hsum]
  omega

/-! ## Conversion totality (claim C1) -/

theorem addToJan1_stay {y delta : Int} (h1 : 1 ≤ delta + 1) (h2 : delta + 1 ≤ daysInYear y) :
    addToJan1 y delta =
      ⟨y, (monthDayFromYday y (delta + 1)).1, (monthDayFromYday y (delta + 1)).2⟩ := by
  have h1s : normStep (y, delta + 1) = (y, delta + 1) := normStep_id h1 h2
  exact addToJan1_eval (by rw [h1s]; exact h1s)

theorem OrdinalDate_Date_valid {o : OrdinalDate} (h : o.Validate = none) :
    (OrdinalDate.Date o).Validate = none := by
  rw [OrdinalDate_Validate_none_iff] at h
  obtain ⟨hy0, hy1, hd1, hd2⟩ := h
  have heq := @addToJan1_stay o.Year (o.Day - 1) (by omega) (by omega)
  have hmd := @monthDayFromYday_valid o.Year (o.Day - 1 + 1) (by omega) (by omega)
  simp only [OrdinalDate.Date]
  rw [heq, Date_Validate_none_iff]
  dsimp only
  exact ⟨by omega, by omega, hmd.1, hmd.2.1, hmd.2.2.1, hmd.2.2.2⟩

theorem daysInQuarter_val (y : Int) :
    daysInQuarter y 1 = (if isLeapYear y then 91 else 90) ∧ daysInQuarter y 2 = 91 ∧
      daysInQuarter y 3 = 92 ∧ daysInQuarter y 4 = 92 := by
  cases hl : isLeapYear y <;> simp [daysInQuarter, daysInQuarterList, hl]

theorem quarterDaysBefore_add_le {q : QuarterDate} (h : q.Validate = none) :
    1 ≤ q.Day + quarterDaysBefore q.Year q.Quarter ∧
      q.Day + quarterDaysBefore q.Year q.Quarter ≤ daysInYear q.Year := by
  rw [QuarterDate_Validate_none_iff] at h
  obtain ⟨hy0, hy1, hq1, hq4, hd1, hd2⟩ := h
  have hq : q.Quarter = 1 ∨ q.Quarter = 2 ∨ q.Quarter = 3 ∨ q.Quarter = 4 := by omega
  cases hl : isLeapYear q.Year with
  | false =>
      have v1 : daysInQuarter q.Year 1 = 90 := by simp [daysInQuarter, daysInQuarterList, hl]
      have v2 : daysInQuarter q.Year 2 = 91 := by simp [daysInQuarter, daysInQuarterList]
      have v3 : daysInQuarter q.Year 3 = 92 := by simp [daysInQuarter, daysInQuarterList]
      have v4 : daysInQuarter q.Year 4 = 92 := by simp [daysInQuarter, daysInQuarterList]
      have hdiy : daysInYear q.Year = 365 := daysInYear_of_not_leap hl
      rcases hq with hq | hq | hq | hq <;> rw [hq] at hd2 ⊢ <;>
        norm_num [quarterDaysBefore, v1, v2, v3, v4] at hd2 ⊢ <;> omega
  | true =>
      have v1 : daysInQuarter q.Year 1 = 91 := by simp [daysInQuarter, daysInQuarterList, hl]
      have v2 : daysInQuarter q.Year 2 = 91 := by simp [daysInQuarter, daysInQuarterList]
      have v3 : daysInQuarter q.Year 3 = 92 := by simp [daysInQuarter, daysInQuarterList]
      have v4 : daysInQuarter q.Year 4 = 92 := by simp [daysInQuarter, daysInQuarterList]
      have hdiy : daysInYear q.Year = 366 := daysInYear_of_leap hl
      rcases hq with hq | hq | hq | hq <;> rw [hq] at hd2 ⊢ <;>
        norm_num [quarterDaysBefore, v1, v2, v3, v4] at hd2 ⊢ <;> omega

theorem QuarterDate_Date_valid {q : QuarterDate} (h : q.Validate = none) :
    (QuarterDate.Date q).Validate = none := by
  have hb := quarterDaysBefore_add_le h
  rw [QuarterDate_Validate_none_iff] at h
  obtain ⟨hy0, hy1, hq1, hq4, hd1, hd2⟩ := h
  simp only [QuarterDate.Date]
  exact addToJan1_valid hy0 hy1 (by omega) (by omega) (by omega) (by omega)

theorem firstThursdayFrom_spec {t r : Int} (h0 : 0 ≤ r) (h6 : r < 7)
    (hmod : (t + 6) % 7 = r) : firstThursdayFrom t = t + (4 - r + 7) % 7 := by
  have hr : r = 0 ∨ r = 1 ∨ r = 2 ∨ r = 3 ∨ r = 4 ∨ r = 5 ∨ r = 6 := by omega
  unfold firstThursdayFrom weekdayOfAbs
  rcases hr with hr | hr | hr | hr | hr | hr | hr <;> subst hr
  · rw [if_neg (by omega), if_neg (by omega), if_neg (by omega), if_neg (by omega),
      if_pos (by omega)]
    norm_num
  · rw [if_neg (by omega), if_neg (by omega), if_neg (by omega), if_pos (by omega)]
    norm_num
  · rw [if_neg (by omega), if_neg (by omega), if_pos (by omega)]
    norm_num
  · rw [if_neg (by omega), if_pos (by omega)]
    norm_num
  · rw [if_pos (by omega)]
    norm_num
  · rw [if_neg (by omega), if_neg (by omega), if_neg (by omega), if_neg (by omega),
      if_neg (by omega), if_neg (by omega)]
    norm_num
  · rw [if_neg (by omega), if_neg (by omega), if_neg (by omega), if_neg (by omega),
      if_neg (by omega), if_pos (by omega)]
    norm_num

theorem WeekDate_Date_valid {w : WeekDate} (h : w.Validate = none) (h98 : w.Year ≤ 9998) :
    (WeekDate.Date w).Validate = none := by
  rw [WeekDate_Validate_none_iff] at h
  obtain ⟨hy0, hy1, hd1, hd7, hw1, hw2⟩ := h
  rcases eq_or_lt_of_le hy0 with hy0' | hy0'
  · -- year 0: January 1 of year 0 is a Saturday, so no day of any of its
    -- 52 valid weeks leaves the (leap) year 0
    have hyz : w.Year = 0 := hy0'.symm
    have hA : daysBeforeYear w.Year = 0 := by rw [hyz]; decide
    have hT : firstThursdayFrom 0 = 5 := by decide
    have hwiy : weeksInYear w.Year = 52 := by rw [hyz]; decide
    have hdiy : daysInYear w.Year = 366 := by rw [hyz]; decide
    rw [hwiy] at hw2
    simp only [WeekDate.Date]
    rw [hA, hT]
    exact addToJan1_valid hy0 hy1 (by omega) (by omega) (by omega) (by omega)
  · have hy1' : (1 : Int) ≤ w.Year := hy0'
    have hby := daysInYear_bounds w.Year
    have hwk := weeksInYear_pos_eq hy1'
    have hjan := daysBeforeYear_mod7 hy1'
    set x := ((w.Year - 1) + (w.Year - 1) / 4 - (w.Year - 1) / 100 + (w.Year - 1) / 400) % 7
      with hxdef
    have hx : x = 0 ∨ x = 1 ∨ x = 2 ∨ x = 3 ∨ x = 4 ∨ x = 5 ∨ x = 6 := by omega
    rw [hwk] at hw2
    simp only [WeekDate.Date]
    rcases hx with hx | hx | hx | hx | hx | hx | hx <;> rw [hx] at hjan hw2 <;>
      norm_num at hjan hw2
    · -- x = 0: January 1 is a Monday, k = 3, 52 weeks
      rw [firstThursdayFrom_spec (r := 1) (by norm_num) (by norm_num) hjan]
      exact addToJan1_valid hy0 hy1 (by omega) (by omega) (by omega) (by omega)
    · -- x = 1: January 1 is a Tuesday, k = 2, 52 weeks
      rw [firstThursdayFrom_spec (r := 2) (by norm_num) (by norm_num) hjan]
      exact addToJan1_valid hy0 hy1 (by omega) (by omega) (by omega) (by omega)
    · -- x = 2: January 1 is a Wednesday, k = 1; 53 weeks exactly in leap years
      rw [firstThursdayFrom_spec (r := 3) (by norm_num) (by norm_num) hjan]
      cases hl : isLeapYear w.Year with
      | false =>
          rw [hl] at hw2
          norm_num at hw2
          exact addToJan1_valid hy0 hy1 (by omega) (by omega) (by omega) (by omega)
      | true =>
          rw [hl] at hw2
          norm_num at hw2
          have hdiy := daysInYear_of_leap hl
          exact addToJan1_valid hy0 hy1 (by omega) (by omega) (by omega) (by omega)
    · -- x = 3: January 1 is a Thursday, k = 0, 53 weeks
      rw [firstThursdayFrom_spec (r := 4) (by norm_num) (by norm_num) hjan]
      exact addToJan1_valid hy0 hy1 (by omega) (by omega) (by omega) (by omega)
    · -- x = 4: January 1 is a Friday, k = 6, 52 weeks
      rw [firstThursdayFrom_spec (r := 5) (by norm_num) (by norm_num) hjan]
      exact addToJan1_valid hy0 hy1 (by omega) (by omega) (by omega) (by omega)
    · -- x = 5: January 1 is a Saturday, k = 5, 52 weeks
      rw [firstThursdayFrom_spec (r := 6) (by norm_num) (by norm_num) hjan]
      exact addToJan1_valid hy0 hy1 (by omega) (by omega) (by omega) (by omega)
    · -- x = 6: January 1 is a Sunday, k = 4, 52 weeks
      have hjan0 : (daysBeforeYear w.Year + 6) % 7 = 0 := by omega
      rw [firstThursdayFrom_spec (r := 0) (by norm_num) (by norm_num) hjan0]
      exact addToJan1_valid hy0 hy1 (by omega) (by omega) (by omega) (by omega)

/-! ## The weeksInYear rule (claim C4) -/

theorem weeksInYear_52_or_53 (y : Int) : weeksInYear y = 52 ∨ weeksInYear y = 53 := by
  simp only [weeksInYear]
  split_ifs <;> simp

theorem weeksInYear_53_iff_pos {y : Int} (h : 1 ≤ y) :
    weeksInYear y = 53 ↔
      (((y - 1) + (y - 1) / 4 - (y - 1) / 100 + (y - 1) / 400) % 7 = 3 ∨
        (((y - 1) + (y - 1) / 4 - (y - 1) / 100 + (y - 1) / 400) % 7 = 2 ∧
          isLeapYear y = true)) := by
  rw [weeksInYear_pos_eq h]
  split_ifs with hc
  · simp [hc]
  · simp [hc]

theorem jan1Weekday_eq (y : Int) : jan1Weekday y = (daysBeforeYear y + 6) % 7 := rfl

theorem weeksInYear_53_weekday_pos {y : Int} (h : 1 ≤ y) :
    weeksInYear y = 53 ↔
      (jan1Weekday y = 4 ∨ (jan1Weekday y = 3 ∧ isLeapYear y = true)) := by
  rw [weeksInYear_53_iff_pos h, jan1Weekday_eq, daysBeforeYear_mod7 h]
  have e4 : ((((y - 1) + (y - 1) / 4 - (y - 1) / 100 + (y - 1) / 400) % 7 + 1) % 7 = 4) ↔
      (((y - 1) + (y - 1) / 4 - (y - 1) / 100 + (y - 1) / 400) % 7 = 3) := by omega
  have e3 : ((((y - 1) + (y - 1) / 4 - (y - 1) / 100 + (y - 1) / 400) % 7 + 1) % 7 = 3) ↔
      (((y - 1) + (y - 1) / 4 - (y - 1) / 100 + (y - 1) / 400) % 7 = 2) := by omega
  rw [e4, e3]

theorem norm400_tdiv {y : Int} (h : y < 1) :
    y.tdiv 400 = -((-y) / 400) := by
  have hy : y = -(-y) := by ring
  rw [hy, Int.neg_tdiv, Int.tdiv_eq_ediv (by omega) (by norm_num)]
  ring_nf

theorem norm400_bounds {y : Int} (h : y < 1) :
    1 ≤ y + 400 * (1 - y.tdiv 400) ∧ y + 400 * (1 - y.tdiv 400) ≤ 400 ∧
      (y + 400 * (1 - y.tdiv 400)) % 400 = y % 400 := by
  rw [norm400_tdiv h]
  omega

theorem weeksInYear_formula_at {z : Int} (h : 1 ≤ z) :
    weeksInYear z =
      if ((z - 1) + (z - 1).tdiv 4 - (z - 1).tdiv 100 + (z - 1).tdiv 400).tmod 7 = 3 ∨
          (((z - 1) + (z - 1).tdiv 4 - (z - 1).tdiv 100 + (z - 1).tdiv 400).tmod 7 = 2 ∧
            isLeapYear z = true)
      then 53 else 52 := by
  simp only [weeksInYear]
  have hz : (if z < 1 then z + 400 * (1 - z.tdiv 400) else z) = z := if_neg (by omega)
  rw [hz]

theorem weeksInYear_neg_norm {y : Int} (h : y < 1) :
    weeksInYear y = weeksInYear (y + 400 * (1 - y.tdiv 400)) := by
  have hb := norm400_bounds h
  rw [weeksInYear_formula_at hb.1]
  simp only [weeksInYear]
  rw [if_pos h]

theorem daysBeforeYear_add_400 (y k : Int) :
    daysBeforeYear (y + 400 * k) = daysBeforeYear y + 146097 * k := by
  unfold daysBeforeYear
  have h4 : (y + 400 * k + 3) / 4 = (y + 3) / 4 + 100 * k := by
    rw [show y + 400 * k + 3 = y + 3 + 100 * k * 4 by ring,
      Int.add_mul_ediv_right _ _ (show (4 : Int) ≠ 0 by norm_num)]
  have h100 : (y + 400 * k + 99) / 100 = (y + 99) / 100 + 4 * k := by
    rw [show y + 400 * k + 99 = y + 99 + 4 * k * 100 by ring,
      Int.add_mul_ediv_right _ _ (show (100 : Int) ≠ 0 by norm_num)]
  have h400 : (y + 400 * k + 399) / 400 = (y + 399) / 400 + k := by
    rw [show y + 400 * k + 399 = y + 399 + k * 400 by ring,
      Int.add_mul_ediv_right _ _ (show (400 : Int) ≠ 0 by norm_num)]
  rw [h4, h100, h400]
  ring

theorem jan1Weekday_add_400 (y k : Int) : jan1Weekday (y + 400 * k) = jan1Weekday y := by
  rw [jan1Weekday_eq, jan1Weekday_eq, daysBeforeYear_add_400]
  omega

theorem isLeapYear_add_400 (y k : Int) : isLeapYear (y + 400 * k) = isLeapYear y := by
  have h4 : ((y + 400 * k).tmod 4 = 0) = (y.tmod 4 = 0) := by
    rw [eq_iff_iff, ← Int.dvd_iff_tmod_eq_zero, ← Int.dvd_iff_tmod_eq_zero]
    omega
  have h100 : ((y + 400 * k).tmod 100 = 0) = (y.tmod 100 = 0) := by
    rw [eq_iff_iff, ← Int.dvd_iff_tmod_eq_zero, ← Int.dvd_iff_tmod_eq_zero]
    omega
  have h400 : ((y + 400 * k).tmod 400 = 0) = (y.tmod 400 = 0) := by
    rw [eq_iff_iff, ← Int.dvd_iff_tmod_eq_zero, ← Int.dvd_iff_tmod_eq_zero]
    omega
  simp only [isLeapYear, ne_eq, h4, h100, h400]

theorem weeksInYear_53_weekday (y : Int) :
    weeksInYear y = 53 ↔
      (jan1Weekday y = 4 ∨ (jan1Weekday y = 3 ∧ isLeapYear y = true)) := by
  rcases lt_or_le y 1 with hlt | hge
  · have hb := norm400_bounds hlt
    have hw : jan1Weekday y = jan1Weekday (y + 400 * (1 - y.tdiv 400)) := by
      calc jan1Weekday y
          = jan1Weekday (y + 400 * (1 - y.tdiv 400) + 400 * (-(1 - y.tdiv 400))) := by
            rw [show y + 400 * (1 - y.tdiv 400) + 400 * (-(1 - y.tdiv 400)) = y by ring]
        _ = jan1Weekday (y + 400 * (1 - y.tdiv 400)) := jan1Weekday_add_400 _ _
    have hl : isLeapYear y = isLeapYear (y + 400 * (1 - y.tdiv 400)) := by
      calc isLeapYear y
          = isLeapYear (y + 400 * (1 - y.tdiv 400) + 400 * (-(1 - y.tdiv 400))) := by
            rw [show y + 400 * (1 - y.tdiv 400) + 400 * (-(1 - y.tdiv 400)) = y by ring]
        _ = isLeapYear (y + 400 * (1 - y.tdiv 400)) := isLeapYear_add_400 _ _
    rw [weeksInYear_neg_norm hlt, hw, hl]
    exact weeksInYear_53_weekday_pos hb.1
  · exact weeksInYear_53_weekday_pos hge

/-! ## Byte-list support for the parse characterizations -/

theorem list_len1 {l : List Nat} (h : l.length = 1) : ∃ a, l = [a] := by
  rcases l with _ | ⟨a, _ | ⟨b, t⟩⟩
  · simp at h
  · exact ⟨a, rfl⟩
  · simp at h

theorem list_len2 {l : List Nat} (h : l.length = 2) : ∃ a b, l = [a, b] := by
  rcases l with _ | ⟨a, t⟩
  · simp at h
  · obtain ⟨b, rfl⟩ := list_len1 (by simpa using h)
    exact ⟨a, b, rfl⟩

theorem list_len3 {l : List Nat} (h : l.length = 3) : ∃ a b c, l = [a, b, c] := by
  rcases l with _ | ⟨a, t⟩
  · simp at h
  · obtain ⟨b, c, rfl⟩ := list_len2 (by simpa using h)
    exact ⟨a, b, c, rfl⟩

theorem list_len4 {l : List Nat} (h : l.length = 4) : ∃ a b c d, l = [a, b, c, d] := by
  rcases l with _ | ⟨a, t⟩
  · simp at h
  · obtain ⟨b, c, d, rfl⟩ := list_len3 (by simpa using h)
    exact ⟨a, b, c, d, rfl⟩

theorem list_len7 {l : List Nat} (h : l.length = 7) :
    ∃ a b c d e f g, l = [a, b, c, d, e, f, g] := by
  rcases l with _ | ⟨a, _ | ⟨b, _ | ⟨c, t⟩⟩⟩
  · simp at h
  · simp at h
  · simp at h
  · obtain ⟨d, e, f, g, rfl⟩ := list_len4 (by simpa using h)
    exact ⟨a, b, c, d, e, f, g, rfl⟩

theorem list_len8 {l : List Nat} (h : l.length = 8) :
    ∃ a b c d e f g i, l = [a, b, c, d, e, f, g, i] := by
  rcases l with _ | ⟨a, t⟩
  · simp at h
  · obtain ⟨b, c, d, e, f, g, i, rfl⟩ := list_len7 (by simpa using h)
    exact ⟨a, b, c, d, e, f, g, i, rfl⟩

theorem padDigits_length (w : Nat) (v : Int) : (padDigits w v).length = w := by
  simp [padDigits]

theorem padDigits_digits (w : Nat) (v : Int) : ∀ c ∈ padDigits w v, IsDigit c := by
  intro c hc
  simp only [padDigits, List.mem_map, List.mem_range] at hc
  obtain ⟨i, _, rfl⟩ := hc
  constructor
  · omega
  · have : v.toNat / 10 ^ (w - 1 - i) % 10 < 10 := Nat.mod_lt _ (by norm_num)
    omega

theorem digitVal_48add {d : Nat} (h : d ≤ 9) : digitVal (48 + d) = (d : Int) := by
  simp only [digitVal]
  omega

theorem parseNumLoop_pad4 {v : Int} (h0 : 0 ≤ v) (h : v < 10000) :
    parseNumLoop (padDigits 4 v) 0 4 = v := by
  have hm : ((v.toNat : Int)) = v := Int.toNat_of_nonneg h0
  simp only [padDigits, List.range_succ, List.range_zero]
  norm_num [parseNumLoop, List.getD, digitVal_48add (Nat.le_of_lt_succ (Nat.mod_lt _ (by norm_num)))]
  omega

theorem parseNumLoop_pad3 {v : Int} (h0 : 0 ≤ v) (h : v < 1000) :
    parseNumLoop (padDigits 3 v) 0 3 = v := by
  have hm : ((v.toNat : Int)) = v := Int.toNat_of_nonneg h0
  simp only [padDigits, List.range_succ, List.range_zero]
  norm_num [parseNumLoop, List.getD, digitVal_48add (Nat.le_of_lt_succ (Nat.mod_lt _ (by norm_num)))]
  omega

theorem parseNumLoop_pad2 {v : Int} (h0 : 0 ≤ v) (h : v < 100) :
    parseNumLoop (padDigits 2 v) 0 2 = v := by
  have hm : ((v.toNat : Int)) = v := Int.toNat_of_nonneg h0
  simp only [padDigits, List.range_succ, List.range_zero]
  norm_num [parseNumLoop, List.getD, digitVal_48add (Nat.le_of_lt_succ (Nat.mod_lt _ (by norm_num)))]
  omega

theorem intItoa_single {v : Int} (h0 : 0 ≤ v) (h9 : v ≤ 9) : intItoa v = [48 + v.toNat] := by
  have hlt : v.toNat < 10 := by omega
  simp only [intItoa, natDecimal, natDecimalAux, if_neg (by omega : ¬ v < 0), if_pos hlt]

theorem intItoa_single_digits {v : Int} (h0 : 0 ≤ v) (h9 : v ≤ 9) :
    ∀ c ∈ intItoa v, IsDigit c := by
  rw [intItoa_single h0 h9]
  intro c hc
  simp only [List.mem_singleton] at hc
  subst hc
  exact ⟨by omega, by omega⟩

theorem intItoa_single_length {v : Int} (h0 : 0 ≤ v) (h9 : v ≤ 9) : (intItoa v).length = 1 := by
  rw [intItoa_single h0 h9]
  rfl

theorem parseNumLoop_intItoa {v : Int} (h0 : 0 ≤ v) (h9 : v ≤ 9) :
    parseNumLoop (intItoa v) 0 1 = v := by
  rw [intItoa_single h0 h9]
  simp only [parseNumLoop, List.getD, List.get?]
  rw [Option.getD_some, digitVal_48add (by omega)]
  omega

/-! ## Shape characterizations of the dispatcher -/

theorem isDigitByte_45 : isDigitByte 45 = false := by decide
theorem isDigitByte_81 : isDigitByte 81 = false := by decide
theorem isDigitByte_87 : isDigitByte 87 = false := by decide

theorem parse_ext_calendar_shape (Y M D : List Nat) (hY : Y.length = 4) (hM : M.length = 2)
    (hD : D.length = 2) (dY : ∀ c ∈ Y, IsDigit c) (dM : ∀ c ∈ M, IsDigit c)
    (dD : ∀ c ∈ D, IsDigit c) :
    parseDateNoSign (Y ++ 45 :: M ++ 45 :: D) =
      leafResult 10
        (ymdISODate (parseNumLoop Y 0 4) (parseNumLoop M 0 2) (parseNumLoop D 0 2)) := by
  obtain ⟨a1, a2, a3, a4, rfl⟩ := list_len4 hY
  obtain ⟨m1, m2, rfl⟩ := list_len2 hM
  obtain ⟨e1, e2, rfl⟩ := list_len2 hD
  have g1 := isDigitByte_eq_true (dY a1 (by simp))
  have g2 := isDigitByte_eq_true (dY a2 (by simp))
  have g3 := isDigitByte_eq_true (dY a3 (by simp))
  have g4 := isDigitByte_eq_true (dY a4 (by simp))
  have gm1 := isDigitByte_eq_true (dM m1 (by simp))
  have gm2 := isDigitByte_eq_true (dM m2 (by simp))
  have ge1 := isDigitByte_eq_true (dD e1 (by simp))
  have ge2 := isDigitByte_eq_true (dD e2 (by simp))
  simp [parseDateNoSign, parseYearHead, parseExtended, parseExtCalendar,
    countDigits, countLeading, parseNumber, parseNumLoop, List.getD, List.get?,
    g1, g2, g3, g4, gm1, gm2, ge1, ge2, isDigitByte_45]

theorem parse_ext_ordinal_shape (Y D : List Nat) (hY : Y.length = 4) (hD : D.length = 3)
    (dY : ∀ c ∈ Y, IsDigit c) (dD : ∀ c ∈ D, IsDigit c) :
    parseDateNoSign (Y ++ 45 :: D) =
      leafResult 8 (ydISODate (parseNumLoop Y 0 4) (parseNumLoop D 0 3)) := by
  obtain ⟨a1, a2, a3, a4, rfl⟩ := list_len4 hY
  obtain ⟨e1, e2, e3, rfl⟩ := list_len3 hD
  have g1 := isDigitByte_eq_true (dY a1 (by simp))
  have g2 := isDigitByte_eq_true (dY a2 (by simp))
  have g3 := isDigitByte_eq_true (dY a3 (by simp))
  have g4 := isDigitByte_eq_true (dY a4 (by simp))
  have ge1 := isDigitByte_eq_true (dD e1 (by simp))
  have ge2 := isDigitByte_eq_true (dD e2 (by simp))
  have ge3 := isDigitByte_eq_true (dD e3 (by simp))
  simp [parseDateNoSign, parseYearHead, parseExtended, parseExtOrdinal,
    countDigits, countLeading, parseNumber, parseNumLoop, List.getD, List.get?,
    g1, g2, g3, g4, ge1, ge2, ge3, isDigitByte_45]

theorem parse_ext_week_shape (Y W D : List Nat) (hY : Y.length = 4) (hW : W.length = 2)
    (hD : D.length = 1) (dY : ∀ c ∈ Y, IsDigit c) (dW : ∀ c ∈ W, IsDigit c)
    (dD : ∀ c ∈ D, IsDigit c) :
    parseDateNoSign (Y ++ 45 :: 87 :: W ++ 45 :: D) =
      leafResult 10
        (ywdISODate (parseNumLoop Y 0 4) (parseNumLoop W 0 2) (parseNumLoop D 0 1)) := by
  obtain ⟨a1, a2, a3, a4, rfl⟩ := list_len4 hY
  obtain ⟨w1, w2, rfl⟩ := list_len2 hW
  obtain ⟨e1, rfl⟩ := list_len1 hD
  have g1 := isDigitByte_eq_true (dY a1 (by simp))
  have g2 := isDigitByte_eq_true (dY a2 (by simp))
  have g3 := isDigitByte_eq_true (dY a3 (by simp))
  have g4 := isDigitByte_eq_true (dY a4 (by simp))
  have gw1 := isDigitByte_eq_true (dW w1 (by simp))
  have gw2 := isDigitByte_eq_true (dW w2 (by simp))
  have ge1 := isDigitByte_eq_true (dD e1 (by simp))
  simp [parseDateNoSign, parseYearHead, parseExtended, parseExtQW, parseExtWeek,
    countDigits, countLeading, parseNumber, parseNumLoop, List.getD, List.get?,
    g1, g2, g3, g4, gw1, gw2, ge1, isDigitByte_45, isDigitByte_87]

theorem parse_ext_quarter_shape (Y Q D : List Nat) (hY : Y.length = 4) (hQ : Q.length = 1)
    (hD : D.length = 2) (dY : ∀ c ∈ Y, IsDigit c) (dQ : ∀ c ∈ Q, IsDigit c)
    (dD : ∀ c ∈ D, IsDigit c) :
    parseDateNoSign (Y ++ 45 :: 81 :: Q ++ 45 :: D) =
      leafResult 10
        (yqdISODate (parseNumLoop Y 0 4) (parseNumLoop Q 0 1) (parseNumLoop D 0 2)) := by
  obtain ⟨a1, a2, a3, a4, rfl⟩ := list_len4 hY
  obtain ⟨q1, rfl⟩ := list_len1 hQ
  obtain ⟨e1, e2, rfl⟩ := list_len2 hD
  have g1 := isDigitByte_eq_true (dY a1 (by simp))
  have g2 := isDigitByte_eq_true (dY a2 (by simp))
  have g3 := isDigitByte_eq_true (dY a3 (by simp))
  have g4 := isDigitByte_eq_true (dY a4 (by simp))
  have gq1 := isDigitByte_eq_true (dQ q1 (by simp))
  have ge1 := isDigitByte_eq_true (dD e1 (by simp))
  have ge2 := isDigitByte_eq_true (dD e2 (by simp))
  simp [parseDateNoSign, parseYearHead, parseExtended, parseExtQW, parseExtQuarter,
    countDigits, countLeading, parseNumber, parseNumLoop, List.getD, List.get?,
    g1, g2, g3, g4, gq1, ge1, ge2, isDigitByte_45, isDigitByte_81]

theorem parse_basic_calendar_shape (b : List Nat) (hb : b.length = 8)
    (db : ∀ c ∈ b, IsDigit c) :
    parseDateNoSign b =
      leafResult 8
        (ymdISODate (parseNumLoop b 0 4) (parseNumLoop b 4 2) (parseNumLoop b 6 2)) := by
  obtain ⟨a1, a2, a3, a4, a5, a6, a7, a8, rfl⟩ := list_len8 hb
  have g1 := isDigitByte_eq_true (db a1 (by simp))
  have g2 := isDigitByte_eq_true (db a2 (by simp))
  have g3 := isDigitByte_eq_true (db a3 (by simp))
  have g4 := isDigitByte_eq_true (db a4 (by simp))
  have g5 := isDigitByte_eq_true (db a5 (by simp))
  have g6 := isDigitByte_eq_true (db a6 (by simp))
  have g7 := isDigitByte_eq_true (db a7 (by simp))
  have g8 := isDigitByte_eq_true (db a8 (by simp))
  simp [parseDateNoSign, parseBasicCalendar, countDigits, countLeading, parseNumber,
    parseNumLoop, List.getD, List.get?, g1, g2, g3, g4, g5, g6, g7, g8]

theorem parse_basic_ordinal_shape (b : List Nat) (hb : b.length = 7)
    (db : ∀ c ∈ b, IsDigit c) :
    parseDateNoSign b =
      leafResult 7 (ydISODate (parseNumLoop b 0 4) (parseNumLoop b 4 3)) := by
  obtain ⟨a1, a2, a3, a4, a5, a6, a7, rfl⟩ := list_len7 hb
  have g1 := isDigitByte_eq_true (db a1 (by simp))
  have g2 := isDigitByte_eq_true (db a2 (by simp))
  have g3 := isDigitByte_eq_true (db a3 (by simp))
  have g4 := isDigitByte_eq_true (db a4 (by simp))
  have g5 := isDigitByte_eq_true (db a5 (by simp))
  have g6 := isDigitByte_eq_true (db a6 (by simp))
  have g7 := isDigitByte_eq_true (db a7 (by simp))
  simp [parseDateNoSign, parseBasicOrdinal, countDigits, countLeading, parseNumber,
    parseNumLoop, List.getD, List.get?, g1, g2, g3, g4, g5, g6, g7]

theorem parse_basic_week_shape (Y T : List Nat) (hY : Y.length = 4) (hT : T.length = 3)
    (dY : ∀ c ∈ Y, IsDigit c) (dT : ∀ c ∈ T, IsDigit c) :
    parseDateNoSign (Y ++ 87 :: T) =
      leafResult 8
        (ywdISODate (parseNumLoop Y 0 4) (parseNumLoop T 0 2) (parseNumLoop T 2 1)) := by
  obtain ⟨a1, a2, a3, a4, rfl⟩ := list_len4 hY
  obtain ⟨t1, t2, t3, rfl⟩ := list_len3 hT
  have g1 := isDigitByte_eq_true (dY a1 (by simp))
  have g2 := isDigitByte_eq_true (dY a2 (by simp))
  have g3 := isDigitByte_eq_true (dY a3 (by simp))
  have g4 := isDigitByte_eq_true (dY a4 (by simp))
  have gt1 := isDigitByte_eq_true (dT t1 (by simp))
  have gt2 := isDigitByte_eq_true (dT t2 (by simp))
  have gt3 := isDigitByte_eq_true (dT t3 (by simp))
  simp [parseDateNoSign, parseYearHead, parseBasicWeek, countDigits, countLeading,
    parseNumber, parseNumLoop, List.getD, List.get?, g1, g2, g3, g4, gt1, gt2, gt3,
    isDigitByte_87]

theorem parse_basic_quarter_shape (Y T : List Nat) (hY : Y.length = 4) (hT : T.length = 3)
    (dY : ∀ c ∈ Y, IsDigit c) (dT : ∀ c ∈ T, IsDigit c) :
    parseDateNoSign (Y ++ 81 :: T) =
      leafResult 8
        (yqdISODate (parseNumLoop Y 0 4) (parseNumLoop T 0 1) (parseNumLoop T 1 2)) := by
  obtain ⟨a1, a2, a3, a4, rfl⟩ := list_len4 hY
  obtain ⟨t1, t2, t3, rfl⟩ := list_len3 hT
  have g1 := isDigitByte_eq_true (dY a1 (by simp))
  have g2 := isDigitByte_eq_true (dY a2 (by simp))
  have g3 := isDigitByte_eq_true (dY a3 (by simp))
  have g4 := isDigitByte_eq_true (dY a4 (by simp))
  have gt1 := isDigitByte_eq_true (dT t1 (by simp))
  have gt2 := isDigitByte_eq_true (dT t2 (by simp))
  have gt3 := isDigitByte_eq_true (dT t3 (by simp))
  simp [parseDateNoSign, parseYearHead, parseBasicQuarter, countDigits, countLeading,
    parseNumber, parseNumLoop, List.getD, List.get?, g1, g2, g3, g4, gt1, gt2, gt3,
    isDigitByte_81]

/-! ## Wrappers: sign handling and total consumption -/

theorem parseDate_eq_noSign {b : List Nat} (h : b.head? ≠ some 43) :
    parseDate b = parseDateNoSign b := by
  cases b with
  | nil => rfl
  | cons c rest =>
      rw [parseDate]
      exact if_neg (by simpa using h)

theorem parseDate_cons43 (b : List Nat) : parseDate (43 :: b) = addSign (parseDateNoSign b) := by
  rw [parseDate]
  exact if_pos rfl

theorem parseDate_pad4_head (v : Int) (rest : List Nat) :
    parseDate (padDigits 4 v ++ rest) = parseDateNoSign (padDigits 4 v ++ rest) := by
  obtain ⟨a, b', c, d, hEq⟩ := list_len4 (padDigits_length 4 v)
  have ha : IsDigit a := padDigits_digits 4 v a (by rw [hEq]; simp)
  obtain ⟨ha1, ha2⟩ := ha
  apply parseDate_eq_noSign
  rw [hEq]
  simp only [List.cons_append, List.head?_cons, ne_eq, Option.some.injEq]
  omega

theorem ParseDate_ok {b : List Nat} {n : Nat} {d : DateLike} (h : parseDate b = .ok n d)
    (hn : b.length = n) : ParseDate b = .ok n d := by
  simp [ParseDate, h, hn]

theorem ParseDate_err {b : List Nat} {e : ParseError} (h : parseDate b = .err e) :
    ParseDate b = .err e := by
  simp [ParseDate, h]

theorem daysInQuarter_le_92 {y q : Int} (h1 : 1 ≤ q) (h4 : q ≤ 4) :
    daysInQuarter y q ≤ 92 := by
  obtain ⟨v1, v2, v3, v4⟩ := daysInQuarter_val y
  have hq : q = 1 ∨ q = 2 ∨ q = 3 ∨ q = 4 := by omega
  cases hl : isLeapYear y <;> rw [hl] at v1 <;> simp at v1 <;>
    rcases hq with hq | hq | hq | hq <;> rw [hq] <;> omega

/-! ## Round trips (claim C2) -/

theorem round_trip_calendar {d : Date} (h : d.Validate = none) :
    ParseDate (Date.String d) = .ok 10 (.calendar d) := by
  rw [Date_Validate_none_iff] at h
  obtain ⟨hy0, hy1, hm1, hm2, hd1, hd2⟩ := h
  have hdim := daysInMonth_pos (y := d.Year) hm1 hm2
  have hshape := parse_ext_calendar_shape (padDigits 4 d.Year) (padDigits 2 d.Month)
    (padDigits 2 d.Day) (padDigits_length _ _) (padDigits_length _ _) (padDigits_length _ _)
    (padDigits_digits _ _) (padDigits_digits _ _) (padDigits_digits _ _)
  rw [parseNumLoop_pad4 hy0 (by omega), parseNumLoop_pad2 (by omega) (by omega),
    parseNumLoop_pad2 (by omega) (by omega)] at hshape
  have hval : ymdISODate d.Year d.Month d.Day = .ok (.calendar d) := by
    unfold ymdISODate
    rw [show (⟨d.Year, d.Month, d.Day⟩ : Date) = d from rfl]
    simp [Date_Validate_none_iff.mpr ⟨hy0, hy1, hm1, hm2, hd1, hd2⟩]
  apply ParseDate_ok
  · unfold Date.String
    simp only [List.append_assoc, List.cons_append] at hshape ⊢
    rw [parseDate_pad4_head, hshape, hval]
    rfl
  · simp [Date.String, padDigits_length]

theorem round_trip_ordinal {o : OrdinalDate} (h : o.Validate = none) :
    ParseDate (OrdinalDate.String o) = .ok 8 (.ordinal o) := by
  rw [OrdinalDate_Validate_none_iff] at h
  obtain ⟨hy0, hy1, hd1, hd2⟩ := h
  have hby := daysInYear_bounds o.Year
  have hshape := parse_ext_ordinal_shape (padDigits 4 o.Year) (padDigits 3 o.Day)
    (padDigits_length _ _) (padDigits_length _ _)
    (padDigits_digits _ _) (padDigits_digits _ _)
  rw [parseNumLoop_pad4 hy0 (by omega), parseNumLoop_pad3 (by omega) (by omega)] at hshape
  have hval : ydISODate o.Year o.Day = .ok (.ordinal o) := by
    unfold ydISODate
    rw [show (⟨o.Year, o.Day⟩ : OrdinalDate) = o from rfl]
    simp [OrdinalDate_Validate_none_iff.mpr ⟨hy0, hy1, hd1, hd2⟩]
  apply ParseDate_ok
  · unfold OrdinalDate.String
    rw [parseDate_pad4_head, hshape, hval]
    rfl
  · simp [OrdinalDate.String, padDigits_length]

theorem round_trip_week {w : WeekDate} (h : w.Validate = none) :
    ParseDate (WeekDate.String w) = .ok 10 (.week w) := by
  rw [WeekDate_Validate_none_iff] at h
  obtain ⟨hy0, hy1, hd1, hd7, hw1, hw2⟩ := h
  have hwy := weeksInYear_52_or_53 w.Year
  have hshape := parse_ext_week_shape (padDigits 4 w.Year) (padDigits 2 w.Week)
    (intItoa w.Day) (padDigits_length _ _) (padDigits_length _ _)
    (intItoa_single_length (by omega) (by omega))
    (padDigits_digits _ _) (padDigits_digits _ _) (intItoa_single_digits (by omega) (by omega))
  rw [parseNumLoop_pad4 hy0 (by omega), parseNumLoop_pad2 (by omega) (by omega),
    parseNumLoop_intItoa (by omega) (by omega)] at hshape
  have hval : ywdISODate w.Year w.Week w.Day = .ok (.week w) := by
    unfold ywdISODate
    rw [show (⟨w.Year, w.Week, w.Day⟩ : WeekDate) = w from rfl]
    simp [WeekDate_Validate_none_iff.mpr ⟨hy0, hy1, hd1, hd7, hw1, hw2⟩]
  apply ParseDate_ok
  · unfold WeekDate.String
    simp only [List.append_assoc, List.cons_append] at hshape ⊢
    rw [parseDate_pad4_head, hshape, hval]
    rfl
  · simp [WeekDate.String, padDigits_length, intItoa_single_length (by omega : (0:Int) ≤ w.Day)
      (by omega : w.Day ≤ 9)]

theorem round_trip_quarter {q : QuarterDate} (h : q.Validate = none) :
    ParseDate (QuarterDate.String q) = .ok 10 (.quarter q) := by
  rw [QuarterDate_Validate_none_iff] at h
  obtain ⟨hy0, hy1, hq1, hq4, hd1, hd2⟩ := h
  have hdq := daysInQuarter_le_92 (y := q.Year) hq1 hq4
  have hshape := parse_ext_quarter_shape (padDigits 4 q.Year) (intItoa q.Quarter)
    (padDigits 2 q.Day) (padDigits_length _ _)
    (intItoa_single_length (by omega) (by omega)) (padDigits_length _ _)
    (padDigits_digits _ _) (intItoa_single_digits (by omega) (by omega))
    (padDigits_digits _ _)
  rw [parseNumLoop_pad4 hy0 (by omega), parseNumLoop_intItoa (by omega) (by omega),
    parseNumLoop_pad2 (by omega) (by omega)] at hshape
  have hval : yqdISODate q.Year q.Quarter q.Day = .ok (.quarter q) := by
    unfold yqdISODate
    rw [show (⟨q.Year, q.Quarter, q.Day⟩ : QuarterDate) = q from rfl]
    simp [QuarterDate_Validate_none_iff.mpr ⟨hy0, hy1, hq1, hq4, hd1, hd2⟩]
  apply ParseDate_ok
  · unfold QuarterDate.String
    simp only [List.append_assoc, List.cons_append] at hshape ⊢
    rw [parseDate_pad4_head, hshape, hval]
    rfl
  · simp [QuarterDate.String, padDigits_length,
      intItoa_single_length (by omega : (0:Int) ≤ q.Quarter) (by omega : q.Quarter ≤ 9)]

/-! ## Structurally valid inputs yield a value or a RangeError (claim C5) -/

theorem ParseDate_ne_oob (b : List Nat) : ParseDate b ≠ PDResult.oob := by
  intro hc
  rw [ParseDate] at hc
  split at hc
  · exact parseDate_ne_oob b (by assumption)
  · simp at hc
  · split at hc <;> simp at hc

theorem leaf_ok_or_range {b : List Nat} {n : Nat} {r : Except DateLikeRangeError DateLike}
    (h1 : parseDate b = parseDateNoSign b) (h2 : parseDateNoSign b = leafResult n r)
    (h3 : b.length = n) :
    (∃ dt, ParseDate b = .ok n dt) ∨ (∃ e, ParseDate b = .err (.range e)) := by
  cases r with
  | ok dt => exact Or.inl ⟨dt, ParseDate_ok (by rw [h1, h2]; rfl) h3⟩
  | error e => exact Or.inr ⟨e, ParseDate_err (by rw [h1, h2]; rfl)⟩

theorem parseDate_eq_noSign_append4 {Y : List Nat} (hY : Y.length = 4)
    (dY : ∀ c ∈ Y, IsDigit c) (rest : List Nat) :
    parseDate (Y ++ rest) = parseDateNoSign (Y ++ rest) := by
  obtain ⟨a, b, c, d, rfl⟩ := list_len4 hY
  obtain ⟨h1, h2⟩ := dY a (by simp)
  apply parseDate_eq_noSign
  simp only [List.cons_append, List.head?_cons, ne_eq, Option.some.injEq]
  omega

theorem basic_calendar_ok_or_range {b : List Nat} (hl : b.length = 8)
    (hd : ∀ c ∈ b, IsDigit c) :
    (∃ dt, ParseDate b = .ok 8 dt) ∨ (∃ e, ParseDate b = .err (.range e)) := by
  have hshape := parse_basic_calendar_shape b hl hd
  have hh : parseDate b = parseDateNoSign b := by
    rcases b with _ | ⟨c, rest⟩
    · simp at hl
    · obtain ⟨h1, h2⟩ := hd c (by simp)
      apply parseDate_eq_noSign
      simp only [List.head?_cons, ne_eq, Option.some.injEq]
      omega
  exact leaf_ok_or_range hh hshape hl

theorem basic_ordinal_ok_or_range {b : List Nat} (hl : b.length = 7)
    (hd : ∀ c ∈ b, IsDigit c) :
    (∃ dt, ParseDate b = .ok 7 dt) ∨ (∃ e, ParseDate b = .err (.range e)) := by
  have hshape := parse_basic_ordinal_shape b hl hd
  have hh : parseDate b = parseDateNoSign b := by
    rcases b with _ | ⟨c, rest⟩
    · simp at hl
    · obtain ⟨h1, h2⟩ := hd c (by simp)
      apply parseDate_eq_noSign
      simp only [List.head?_cons, ne_eq, Option.some.injEq]
      omega
  exact leaf_ok_or_range hh hshape hl

theorem basic_week_ok_or_range {Y T : List Nat} (hY : Y.length = 4) (hT : T.length = 3)
    (dY : ∀ c ∈ Y, IsDigit c) (dT : ∀ c ∈ T, IsDigit c) :
    (∃ dt, ParseDate (Y ++ 87 :: T) = .ok 8 dt) ∨
      (∃ e, ParseDate (Y ++ 87 :: T) = .err (.range e)) := by
  exact leaf_ok_or_range (parseDate_eq_noSign_append4 hY dY _)
    (parse_basic_week_shape Y T hY hT dY dT) (by simp [hY, hT])

theorem basic_quarter_ok_or_range {Y T : List Nat} (hY : Y.length = 4) (hT : T.length = 3)
    (dY : ∀ c ∈ Y, IsDigit c) (dT : ∀ c ∈ T, IsDigit c) :
    (∃ dt, ParseDate (Y ++ 81 :: T) = .ok 8 dt) ∨
      (∃ e, ParseDate (Y ++ 81 :: T) = .err (.range e)) := by
  exact leaf_ok_or_range (parseDate_eq_noSign_append4 hY dY _)
    (parse_basic_quarter_shape Y T hY hT dY dT) (by simp [hY, hT])

theorem ext_calendar_ok_or_range {Y M D : List Nat} (hY : Y.length = 4) (hM : M.length = 2)
    (hD : D.length = 2) (dY : ∀ c ∈ Y, IsDigit c) (dM : ∀ c ∈ M, IsDigit c)
    (dD : ∀ c ∈ D, IsDigit c) :
    (∃ dt, ParseDate (Y ++ 45 :: M ++ 45 :: D) = .ok 10 dt) ∨
      (∃ e, ParseDate (Y ++ 45 :: M ++ 45 :: D) = .err (.range e)) := by
  have hshape := parse_ext_calendar_shape Y M D hY hM hD dY dM dD
  have hh := parseDate_eq_noSign_append4 hY dY (45 :: M ++ 45 :: D)
  simp only [List.append_assoc, List.cons_append] at hshape hh ⊢
  exact leaf_ok_or_range hh hshape (by simp [hY, hM, hD])

theorem ext_ordinal_ok_or_range {Y D : List Nat} (hY : Y.length = 4) (hD : D.length = 3)
    (dY : ∀ c ∈ Y, IsDigit c) (dD : ∀ c ∈ D, IsDigit c) :
    (∃ dt, ParseDate (Y ++ 45 :: D) = .ok 8 dt) ∨
      (∃ e, ParseDate (Y ++ 45 :: D) = .err (.range e)) := by
  exact leaf_ok_or_range (parseDate_eq_noSign_append4 hY dY _)
    (parse_ext_ordinal_shape Y D hY hD dY dD) (by simp [hY, hD])

theorem ext_week_ok_or_range {Y W D : List Nat} (hY : Y.length = 4) (hW : W.length = 2)
    (hD : D.length = 1) (dY : ∀ c ∈ Y, IsDigit c) (dW : ∀ c ∈ W, IsDigit c)
    (dD : ∀ c ∈ D, IsDigit c) :
    (∃ dt, ParseDate (Y ++ 45 :: 87 :: W ++ 45 :: D) = .ok 10 dt) ∨
      (∃ e, ParseDate (Y ++ 45 :: 87 :: W ++ 45 :: D) = .err (.range e)) := by
  have hshape := parse_ext_week_shape Y W D hY hW hD dY dW dD
  have hh := parseDate_eq_noSign_append4 hY dY (45 :: 87 :: W ++ 45 :: D)
  simp only [List.append_assoc, List.cons_append] at hshape hh ⊢
  exact leaf_ok_or_range hh hshape (by simp [hY, hW, hD])

theorem ext_quarter_ok_or_range {Y Q D : List Nat} (hY : Y.length = 4) (hQ : Q.length = 1)
    (hD : D.length = 2) (dY : ∀ c ∈ Y, IsDigit c) (dQ : ∀ c ∈ Q, IsDigit c)
    (dD : ∀ c ∈ D, IsDigit c) :
    (∃ dt, ParseDate (Y ++ 45 :: 81 :: Q ++ 45 :: D) = .ok 10 dt) ∨
      (∃ e, ParseDate (Y ++ 45 :: 81 :: Q ++ 45 :: D) = .err (.range e)) := by
  have hshape := parse_ext_quarter_shape Y Q D hY hQ hD dY dQ dD
  have hh := parseDate_eq_noSign_append4 hY dY (45 :: 81 :: Q ++ 45 :: D)
  simp only [List.append_assoc, List.cons_append] at hshape hh ⊢
  exact leaf_ok_or_range hh hshape (by simp [hY, hQ, hD])

/-! ## The claims -/

/-- Claim C1 (amended): every valid OrdinalDate and QuarterDate converts via
`Date()` to a calendar date passing `Validate`; for WeekDate the same holds
whenever the week-numbering year is at most 9998 — a valid week date of year
9999 can convert into Gregorian year 10000, which fails `Validate` (see the
counterexample), so the converted year does not always stay within
`[0, 9999]`. -/
theorem claim_C1 :
    (∀ o : OrdinalDate, o.Validate = none → (OrdinalDate.Date o).Validate = none) ∧
    (∀ q : QuarterDate, q.Validate = none → (QuarterDate.Date q).Validate = none) ∧
    (∀ w : WeekDate, w.Validate = none → w.Year ≤ 9998 → (WeekDate.Date w).Validate = none) :=
  ⟨fun _ h => OrdinalDate_Date_valid h, fun _ h => QuarterDate_Date_valid h,
    fun _ h h98 => WeekDate_Date_valid h h98⟩

/-- Claim C1 counterexample: `WeekDate{9999, 52, 7}` passes `Validate` but
converts to the calendar date 10000-01-02, which fails `Validate` with a
year out of `[0, 9999]`. -/
theorem claim_C1_counterexample :
    WeekDate.Validate ⟨9999, 52, 7⟩ = none ∧
      WeekDate.Date ⟨9999, 52, 7⟩ = ⟨10000, 1, 2⟩ ∧
      (WeekDate.Date ⟨9999, 52, 7⟩).Validate ≠ none := by
  refine ⟨by decide, by decide, by decide⟩

/-- Claim C1 witness: the amended statement applied to the concrete dates
`OrdinalDate{2008, 60}`, `QuarterDate{2012, 4, 85}` and `WeekDate{2009, 53, 4}`. -/
theorem claim_C1_witness :
    (OrdinalDate.Validate ⟨2008, 60⟩ = none ∧
      (OrdinalDate.Date ⟨2008, 60⟩).Validate = none) ∧
    (QuarterDate.Validate ⟨2012, 4, 85⟩ = none ∧
      (QuarterDate.Date ⟨2012, 4, 85⟩).Validate = none) ∧
    (WeekDate.Validate ⟨2009, 53, 4⟩ = none ∧ (2009 : Int) ≤ 9998 ∧
      (WeekDate.Date ⟨2009, 53, 4⟩).Validate = none) :=
  ⟨⟨by decide, claim_C1.1 ⟨2008, 60⟩ (by decide)⟩,
    ⟨by decide, claim_C1.2.1 ⟨2012, 4, 85⟩ (by decide)⟩,
    ⟨by decide, by decide, claim_C1.2.2 ⟨2009, 53, 4⟩ (by decide) (by decide)⟩⟩

/-- Claim C2: for every representation value passing `Validate`, parsing its
canonical rendering succeeds and returns the same representation with the
same field values (consuming the whole string). -/
theorem claim_C2 :
    (∀ d : Date, d.Validate = none → ParseDate (Date.String d) = .ok 10 (.calendar d)) ∧
    (∀ o : OrdinalDate, o.Validate = none →
      ParseDate (OrdinalDate.String o) = .ok 8 (.ordinal o)) ∧
    (∀ w : WeekDate, w.Validate = none → ParseDate (WeekDate.String w) = .ok 10 (.week w)) ∧
    (∀ q : QuarterDate, q.Validate = none →
      ParseDate (QuarterDate.String q) = .ok 10 (.quarter q)) :=
  ⟨fun _ h => round_trip_calendar h, fun _ h => round_trip_ordinal h,
    fun _ h => round_trip_week h, fun _ h => round_trip_quarter h⟩

/-- Claim C2 witness: the round trip applied to the concrete values
`Date{2012, 12, 24}`, `OrdinalDate{2012, 359}`, `WeekDate{2012, 52, 1}` and
`QuarterDate{2012, 4, 85}`. -/
theorem claim_C2_witness :
    (Date.Validate ⟨2012, 12, 24⟩ = none ∧
      ParseDate (Date.String ⟨2012, 12, 24⟩) = .ok 10 (.calendar ⟨2012, 12, 24⟩)) ∧
    (OrdinalDate.Validate ⟨2012, 359⟩ = none ∧
      ParseDate (OrdinalDate.String ⟨2012, 359⟩) = .ok 8 (.ordinal ⟨2012, 359⟩)) ∧
    (WeekDate.Validate ⟨2012, 52, 1⟩ = none ∧
      ParseDate (WeekDate.String ⟨2012, 52, 1⟩) = .ok 10 (.week ⟨2012, 52, 1⟩)) ∧
    (QuarterDate.Validate ⟨2012, 4, 85⟩ = none ∧
      ParseDate (QuarterDate.String ⟨2012, 4, 85⟩) = .ok 10 (.quarter ⟨2012, 4, 85⟩)) :=
  ⟨⟨by decide, claim_C2.1 ⟨2012, 12, 24⟩ (by decide)⟩,
    ⟨by decide, claim_C2.2.1 ⟨2012, 359⟩ (by decide)⟩,
    ⟨by decide, claim_C2.2.2.1 ⟨2012, 52, 1⟩ (by decide)⟩,
    ⟨by decide, claim_C2.2.2.2 ⟨2012, 4, 85⟩ (by decide)⟩⟩

/-- Claim C3: whenever the prefix of the input parses as a complete date but
characters remain, `ParseDate` returns an `UnexpectedTokenError` whose Token
is the unconsumed suffix and whose AfterToken is the consumed prefix; in
particular for "20121224Hello". -/
theorem claim_C3 :
    (∀ (b : List Nat) (n : Nat) (dt : DateLike), parseDate b = .ok n dt → n < b.length →
      ParseDate b = .err (.unexpected
        ⟨bytesToStr b, bytesToStr (b.drop n), bytesToStr (b.take n), bytesToStr (b.take n)⟩)) ∧
    ParseDate (strBytes "20121224Hello") =
      .err (.unexpected ⟨"20121224Hello", "Hello", "20121224", "20121224"⟩) := by
  constructor
  · intro b n dt hok hlt
    simp [ParseDate, hok, show b.length ≠ n by omega]
  · decide

/-- Claim C3 witness: the general statement applied to "20121224Hello",
whose first eight bytes parse as the calendar date 2012-12-24. -/
theorem claim_C3_witness :
    parseDate (strBytes "20121224Hello") = .ok 8 (.calendar ⟨2012, 12, 24⟩) ∧
    8 < (strBytes "20121224Hello").length ∧
    ParseDate (strBytes "20121224Hello") = .err (.unexpected
      ⟨bytesToStr (strBytes "20121224Hello"), bytesToStr ((strBytes "20121224Hello").drop 8),
        bytesToStr ((strBytes "20121224Hello").take 8),
        bytesToStr ((strBytes "20121224Hello").take 8)⟩) :=
  ⟨by decide, by decide, claim_C3.1 (strBytes "20121224Hello") 8 (.calendar ⟨2012, 12, 24⟩)
    (by decide) (by decide)⟩

/-- Claim C4: `weeksInYear` returns only 52 or 53; it returns 53 exactly when
January 1 of the year falls on a Thursday in the proleptic Gregorian
calendar (weekday 4 in Go numbering), or on a Wednesday (weekday 3) in a
leap year; and for years below 1 it first replaces the year by the congruent
year inside `[1, 400]` and returns that year's result. -/
theorem claim_C4 :
    ∀ y : Int,
      (weeksInYear y = 52 ∨ weeksInYear y = 53) ∧
      (weeksInYear y = 53 ↔
        (jan1Weekday y = 4 ∨ (jan1Weekday y = 3 ∧ isLeapYear y = true))) ∧
      (y < 1 →
        weeksInYear y = weeksInYear (y + 400 * (1 - y.tdiv 400)) ∧
        1 ≤ y + 400 * (1 - y.tdiv 400) ∧ y + 400 * (1 - y.tdiv 400) ≤ 400 ∧
        (y + 400 * (1 - y.tdiv 400)) % 400 = y % 400) :=
  fun y => ⟨weeksInYear_52_or_53 y, weeksInYear_53_weekday y,
    fun hy => ⟨weeksInYear_neg_norm hy, (norm400_bounds hy).1, (norm400_bounds hy).2.1,
      (norm400_bounds hy).2.2⟩⟩

/-- Claim C4 witness: the statement applied to the years 2004 (leap year
starting on a Thursday, 53 weeks) and -3 (normalized into the 400-year
cycle). -/
theorem claim_C4_witness :
    (weeksInYear 2004 = 52 ∨ weeksInYear 2004 = 53) ∧
    (weeksInYear (-3) = weeksInYear ((-3) + 400 * (1 - Int.tdiv (-3) 400)) ∧
      1 ≤ (-3) + 400 * (1 - Int.tdiv (-3) 400) ∧
      (-3) + 400 * (1 - Int.tdiv (-3) 400) ≤ 400 ∧
      ((-3) + 400 * (1 - Int.tdiv (-3) 400)) % 400 = (-3 : Int) % 400) :=
  ⟨(claim_C4 2004).1, (claim_C4 (-3)).2.2 (by decide)⟩

/-- Claim C5: structurally well-formed inputs of all four families (basic
and extended) never produce an `UnexpectedTokenError`: the result is a date
value or a `DateLikeRangeError`; in particular "20120230" reports
day of month 30 outside [1, 29] in 2012, and "2013366" reports day of year
366 outside [1, 365] in 2013. -/
theorem claim_C5 :
    ParseDate (strBytes "20120230") =
      .err (.range ⟨"day of month", 30, 2012, 1, 29⟩) ∧
    ParseDate (strBytes "2013366") =
      .err (.range ⟨"day of year", 366, 2013, 1, 365⟩) ∧
    (∀ b : List Nat, b.length = 8 → (∀ c ∈ b, IsDigit c) →
      (∃ dt, ParseDate b = .ok 8 dt) ∨ (∃ e, ParseDate b = .err (.range e))) ∧
    (∀ b : List Nat, b.length = 7 → (∀ c ∈ b, IsDigit c) →
      (∃ dt, ParseDate b = .ok 7 dt) ∨ (∃ e, ParseDate b = .err (.range e))) ∧
    (∀ Y T : List Nat, Y.length = 4 → T.length = 3 → (∀ c ∈ Y, IsDigit c) →
      (∀ c ∈ T, IsDigit c) →
      (∃ dt, ParseDate (Y ++ 87 :: T) = .ok 8 dt) ∨
        (∃ e, ParseDate (Y ++ 87 :: T) = .err (.range e))) ∧
    (∀ Y T : List Nat, Y.length = 4 → T.length = 3 → (∀ c ∈ Y, IsDigit c) →
      (∀ c ∈ T, IsDigit c) →
      (∃ dt, ParseDate (Y ++ 81 :: T) = .ok 8 dt) ∨
        (∃ e, ParseDate (Y ++ 81 :: T) = .err (.range e))) ∧
    (∀ Y M D : List Nat, Y.length = 4 → M.length = 2 → D.length = 2 →
      (∀ c ∈ Y, IsDigit c) → (∀ c ∈ M, IsDigit c) → (∀ c ∈ D, IsDigit c) →
      (∃ dt, ParseDate (Y ++ 45 :: M ++ 45 :: D) = .ok 10 dt) ∨
        (∃ e, ParseDate (Y ++ 45 :: M ++ 45 :: D) = .err (.range e))) ∧
    (∀ Y D : List Nat, Y.length = 4 → D.length = 3 →
      (∀ c ∈ Y, IsDigit c) → (∀ c ∈ D, IsDigit c) →
      (∃ dt, ParseDate (Y ++ 45 :: D) = .ok 8 dt) ∨
        (∃ e, ParseDate (Y ++ 45 :: D) = .err (.range e))) ∧
    (∀ Y W D : List Nat, Y.length = 4 → W.length = 2 → D.length = 1 →
      (∀ c ∈ Y, IsDigit c) → (∀ c ∈ W, IsDigit c) → (∀ c ∈ D, IsDigit c) →
      (∃ dt, ParseDate (Y ++ 45 :: 87 :: W ++ 45 :: D) = .ok 10 dt) ∨
        (∃ e, ParseDate (Y ++ 45 :: 87 :: W ++ 45 :: D) = .err (.range e))) ∧
    (∀ Y Q D : List Nat, Y.length = 4 → Q.length = 1 → D.length = 2 →
      (∀ c ∈ Y, IsDigit c) → (∀ c ∈ Q, IsDigit c) → (∀ c ∈ D, IsDigit c) →
      (∃ dt, ParseDate (Y ++ 45 :: 81 :: Q ++ 45 :: D) = .ok 10 dt) ∨
        (∃ e, ParseDate (Y ++ 45 :: 81 :: Q ++ 45 :: D) = .err (.range e))) := by
  refine ⟨by decide, by decide, ?_, ?_, ?_, ?_, ?_, ?_, ?_, ?_⟩
  · exact fun b h1 h2 => basic_calendar_ok_or_range h1 h2
  · exact fun b h1 h2 => basic_ordinal_ok_or_range h1 h2
  · exact fun Y T h1 h2 h3 h4 => basic_week_ok_or_range h1 h2 h3 h4
  · exact fun Y T h1 h2 h3 h4 => basic_quarter_ok_or_range h1 h2 h3 h4
  · exact fun Y M D h1 h2 h3 h4 h5 h6 => ext_calendar_ok_or_range h1 h2 h3 h4 h5 h6
  · exact fun Y D h1 h2 h3 h4 => ext_ordinal_ok_or_range h1 h2 h3 h4
  · exact fun Y W D h1 h2 h3 h4 h5 h6 => ext_week_ok_or_range h1 h2 h3 h4 h5 h6
  · exact fun Y Q D h1 h2 h3 h4 h5 h6 => ext_quarter_ok_or_range h1 h2 h3 h4 h5 h6

/-- Claim C5 witness: the general statements applied to concrete structurally
valid inputs of each of the eight shapes. -/
theorem claim_C5_witness :
    ((∃ dt, ParseDate (strBytes "20121324") = .ok 8 dt) ∨
      (∃ e, ParseDate (strBytes "20121324") = .err (.range e))) ∧
    ((∃ dt, ParseDate (strBytes "2013366") = .ok 7 dt) ∨
      (∃ e, ParseDate (strBytes "2013366") = .err (.range e))) ∧
    ((∃ dt, ParseDate (strBytes "2012" ++ 87 :: strBytes "532") = .ok 8 dt) ∨
      (∃ e, ParseDate (strBytes "2012" ++ 87 :: strBytes "532") = .err (.range e))) ∧
    ((∃ dt, ParseDate (strBytes "2012" ++ 81 :: strBytes "585") = .ok 8 dt) ∨
      (∃ e, ParseDate (strBytes "2012" ++ 81 :: strBytes "585") = .err (.range e))) ∧
    ((∃ dt, ParseDate (strBytes "2012" ++ 45 :: strBytes "13" ++ 45 :: strBytes "05") =
        .ok 10 dt) ∨
      (∃ e, ParseDate (strBytes "2012" ++ 45 :: strBytes "13" ++ 45 :: strBytes "05") =
        .err (.range e))) ∧
    ((∃ dt, ParseDate (strBytes "2013" ++ 45 :: strBytes "366") = .ok 8 dt) ∨
      (∃ e, ParseDate (strBytes "2013" ++ 45 :: strBytes "366") = .err (.range e))) ∧
    ((∃ dt, ParseDate (strBytes "2012" ++ 45 :: 87 :: strBytes "53" ++ 45 :: strBytes "2") =
        .ok 10 dt) ∨
      (∃ e, ParseDate (strBytes "2012" ++ 45 :: 87 :: strBytes "53" ++ 45 :: strBytes "2") =
        .err (.range e))) ∧
    ((∃ dt, ParseDate (strBytes "2013" ++ 45 :: 81 :: strBytes "1" ++ 45 :: strBytes "91") =
        .ok 10 dt) ∨
      (∃ e, ParseDate (strBytes "2013" ++ 45 :: 81 :: strBytes "1" ++ 45 :: strBytes "91") =
        .err (.range e))) :=
  ⟨claim_C5.2.2.1 _ (by decide) (by decide),
    claim_C5.2.2.2.1 _ (by decide) (by decide),
    claim_C5.2.2.2.2.1 _ _ (by decide) (by decide) (by decide) (by decide),
    claim_C5.2.2.2.2.2.1 _ _ (by decide) (by decide) (by decide) (by decide),
    claim_C5.2.2.2.2.2.2.1 _ _ _ (by decide) (by decide) (by decide) (by decide) (by decide)
      (by decide),
    claim_C5.2.2.2.2.2.2.2.1 _ _ (by decide) (by decide) (by decide) (by decide),
    claim_C5.2.2.2.2.2.2.2.2.1 _ _ _ (by decide) (by decide) (by decide) (by decide)
      (by decide) (by decide),
    claim_C5.2.2.2.2.2.2.2.2.2 _ _ _ (by decide) (by decide) (by decide) (by decide)
      (by decide) (by decide)⟩

/-- Claim C6: the leap-year laws — a year has 366 days exactly when it is a
leap year, February has 29 days exactly when it is a leap year, the first
quarter has 91 days exactly when it is a leap year, and the non-leap quarter
lengths are 90, 91, 92, 92. -/
theorem claim_C6 :
    ∀ y : Int,
      (daysInYear y = 366 ↔ isLeapYear y = true) ∧
      (daysInMonth y 2 = 29 ↔ isLeapYear y = true) ∧
      (daysInQuarter y 1 = 91 ↔ isLeapYear y = true) ∧
      (isLeapYear y = false → daysInQuarter y 1 = 90) ∧
      daysInQuarter y 2 = 91 ∧ daysInQuarter y 3 = 92 ∧ daysInQuarter y 4 = 92 := by
  intro y
  cases hl : isLeapYear y <;>
    simp [daysInYear, daysInMonth, daysInQuarter, daysInMonthList, daysInQuarterList, hl]

/-- Claim C6 witness: the non-leap clause applied to the year 2013. -/
theorem claim_C6_witness :
    isLeapYear 2013 = false ∧ daysInQuarter 2013 1 = 90 :=
  ⟨by decide, (claim_C6 2013).2.2.2.1 (by decide)⟩

/-- Claim C7 (amended): for inputs that do not already start with '+',
prepending a single '+' to a successfully parsed input yields the same date
value with a consumed count one larger; the original claim fails for inputs
that already carry a sign (see the counterexample). -/
theorem claim_C7 :
    (∀ (b : List Nat) (n : Nat) (dt : DateLike), b.head? ≠ some 43 →
      parseDate b = .ok n dt → parseDate (43 :: b) = .ok (n + 1) dt) ∧
    parseDate (strBytes "+2012-359") = .ok 9 (.ordinal ⟨2012, 359⟩) ∧
    parseDate (strBytes "2012-359") = .ok 8 (.ordinal ⟨2012, 359⟩) := by
  refine ⟨?_, by decide, by decide⟩
  intro b n dt hh hok
  rw [parseDate_eq_noSign hh] at hok
  rw [parseDate_cons43, hok]
  rfl

/-- Claim C7 counterexample: "+2012-359" parses successfully (consuming 9
characters), but prepending another '+' makes the parse fail instead of
producing the same value with consumed count 10. -/
theorem claim_C7_counterexample :
    parseDate (strBytes "+2012-359") = .ok 9 (.ordinal ⟨2012, 359⟩) ∧
    parseDate (43 :: strBytes "+2012-359") =
      .err (.unexpected ⟨"+2012-359", "0-digit", "", "date format"⟩) := by
  refine ⟨by decide, by decide⟩

/-- Claim C7 witness: the amended statement applied to "2012-359". -/
theorem claim_C7_witness :
    (strBytes "2012-359").head? ≠ some 43 ∧
    parseDate (strBytes "2012-359") = .ok 8 (.ordinal ⟨2012, 359⟩) ∧
    parseDate (43 :: strBytes "2012-359") = .ok 9 (.ordinal ⟨2012, 359⟩) :=
  ⟨by decide, by decide,
    claim_C7.1 (strBytes "2012-359") 8 (.ordinal ⟨2012, 359⟩) (by decide) (by decide)⟩

/-- Claim C8: the concrete ISO anchor values — dispatching "2012W521" and
"2012-Q4-85", and the conversions of `OrdinalDate{2008, 60}`,
`QuarterDate{2012, 4, 85}` and `WeekDate{2009, 53, 4}`. -/
theorem claim_C8 :
    ParseDate (strBytes "2012W521") = .ok 8 (.week ⟨2012, 52, 1⟩) ∧
    ParseDate (strBytes "2012-Q4-85") = .ok 10 (.quarter ⟨2012, 4, 85⟩) ∧
    OrdinalDate.Date ⟨2008, 60⟩ = ⟨2008, 2, 29⟩ ∧
    QuarterDate.Date ⟨2012, 4, 85⟩ = ⟨2012, 12, 24⟩ ∧
    WeekDate.Date ⟨2009, 53, 4⟩ = ⟨2009, 12, 31⟩ := by
  refine ⟨by decide, by decide, by decide, by decide, by decide⟩

/-- Claim C9: on every byte sequence the parser terminates with a date value
or a structured error — never with an out-of-bounds access (the `oob`
result, where the Go code would panic). -/
theorem claim_C9 :
    ∀ b : List Nat,
      ((∃ n dt, parseDate b = .ok n dt) ∨ (∃ e, parseDate b = .err e)) ∧
      ((∃ n dt, ParseDate b = .ok n dt) ∨ (∃ e, ParseDate b = .err e)) := by
  intro b
  constructor
  · cases h : parseDate b with
    | ok n d => exact Or.inl ⟨n, d, rfl⟩
    | err e => exact Or.inr ⟨e, rfl⟩
    | oob => exact absurd h (parseDate_ne_oob b)
  · cases h : ParseDate b with
    | ok n d => exact Or.inl ⟨n, d, rfl⟩
    | err e => exact Or.inr ⟨e, rfl⟩
    | oob => exact absurd h (ParseDate_ne_oob b)

/-- Claim C10: `OrdinalDate.Date` always returns the ordinal date's own Year
field, even when an out-of-range day rolls the computed day into the next
year; `WeekDate.Date` and `QuarterDate.Date` instead take all fields from
the computed day, so their result year can differ from the input year. -/
theorem claim_C10 :
    (∀ o : OrdinalDate, (OrdinalDate.Date o).Year = o.Year) ∧
    OrdinalDate.Date ⟨2013, 366⟩ = ⟨2013, 1, 1⟩ ∧
    (WeekDate.Date ⟨2015, 1, 1⟩ = ⟨2014, 12, 29⟩ ∧
      (WeekDate.Date ⟨2015, 1, 1⟩).Year ≠ (2015 : Int)) ∧
    (QuarterDate.Date ⟨2013, 4, 93⟩ = ⟨2014, 1, 1⟩ ∧
      (QuarterDate.Date ⟨2013, 4, 93⟩).Year ≠ (2013 : Int)) := by
  refine ⟨fun o => rfl, by decide, ⟨by decide, by decide⟩, ⟨by decide, by decide⟩⟩

end Iso8601
